import Mathlib

/-!
# Cart & wishlist server (`src/cart-server.js`): shallow embedding

The Express/Mongoose server is modelled as pure functions on an explicit document store.

* The three Mongoose collections (`Cart`, `Wishlist`, `SavedCart`) are lists of documents in
  insertion order. `Model.findOne({ userId })` is the first document owned by the user,
  `Model.findById(id)` the first document with that `_id`, `doc.save()` inserts a document made
  with `new Model(...)` and overwrites, by `_id`, a document that was loaded from the store.
* `_id` values are drawn from a counter kept in the store (`nextId`): a stand-in for ObjectId
  generation, of which only freshness matters.
* Fields of schema type `ObjectId` (`userId`, `productId`) hold the `toString()` of the
  ObjectId, which is lower-case hexadecimal. A string of a request (`req.userId`, a `productId`
  of the body or of the path) is kept as sent; it becomes an ObjectId, by `castObjectId`, where
  Mongoose casts it: when it is stored in such a field and when it is the value of a query
  filter. The comparisons `x.toString() === s` of the source compare the stored lower-case
  string with the string as sent. Ids are 24-digit hexadecimal strings; shorter strings stand
  for them in examples.
* JavaScript numbers: quantities are integers (`Int`), prices and amounts are exact rationals
  (`ℚ`), so `0.10` is `1/10`, and `+`, `-`, `*` are exact. Where the rounding of IEEE doubles
  decides a statement, the product is taken as a parameter (`moveToCartWith`) and
  `doubleMul` is the binary64 product.
* `String.prototype.toUpperCase` is a parameter (`JsString`): any function that is the ASCII
  upper-casing on ASCII strings.
* `Date.now()` is passed to every handler as the parameter `now`.
* `req.userId` (set by `verifyToken`) is passed as the parameter `userId`; the token check itself
  is not part of the model. Request bodies are typed: the `catch` branches (status 500) of the
  handlers are unreachable in the model.
-/

namespace CartServer

/-! ## Data model (the three schemas) -/

/-- Element of `cartSchema.items` (and of `savedCartSchema.items`, which has the same shape).
`productId` is the `toString()` of the stored ObjectId. -/
structure CartItem where
  productId : String
  sku : String
  name : String
  quantity : Int
  unitPrice : ℚ
  totalPrice : ℚ
deriving DecidableEq, Repr

/-- Document of `cartSchema`. `userId` is the `toString()` of the stored ObjectId. -/
structure Cart where
  id : Nat
  userId : String
  items : List CartItem
  totalAmount : ℚ
  discount : ℚ
  discountCode : Option String
  finalAmount : ℚ
  updatedAt : Nat
deriving DecidableEq, Repr

/-- Element of `wishlistSchema.items`. `productId` is the `toString()` of the stored
ObjectId. -/
structure WishlistItem where
  productId : String
  sku : String
  name : String
  unitPrice : ℚ
  addedAt : Nat
deriving DecidableEq, Repr

/-- Document of `wishlistSchema`. `userId` is the `toString()` of the stored ObjectId. -/
structure Wishlist where
  id : Nat
  userId : String
  items : List WishlistItem
  updatedAt : Nat
deriving DecidableEq, Repr

/-- Document of `savedCartSchema`. `userId` is the `toString()` of the stored ObjectId. -/
structure SavedCart where
  id : Nat
  userId : String
  name : String
  items : List CartItem
  totalAmount : ℚ
  savedAt : Nat
deriving DecidableEq, Repr

/-- The database: the three collections, and the source of fresh `_id` values. -/
structure Store where
  carts : List Cart
  wishlists : List Wishlist
  savedCarts : List SavedCart
  nextId : Nat
deriving DecidableEq, Repr

/-- The database before any request. -/
def Store.empty : Store := { carts := [], wishlists := [], savedCarts := [], nextId := 0 }

/-- What a handler sends: `res.json({ success: true, message, data })` (status 200), or
`res.status(status).json({ success: false, message })`. -/
inductive Response (α : Type) where
  | success (message : Option String) (data : α)
  | failure (status : Nat) (message : String)
deriving DecidableEq, Repr

/-! ## ObjectIds, strings and numbers of the runtime -/

/-- The lower-case form of a hexadecimal digit. -/
def lowerHexChar (c : Char) : Char :=
  if c = 'A' then 'a'
  else if c = 'B' then 'b'
  else if c = 'C' then 'c'
  else if c = 'D' then 'd'
  else if c = 'E' then 'e'
  else if c = 'F' then 'f'
  else c

/-- The cast of a hexadecimal id string to an ObjectId, given by the `toString()` of the
result: the same digits in lower case. -/
def castObjectId (s : String) : String := String.mk (s.data.map lowerHexChar)

/-- Every character of the string is an ASCII character. -/
def isAscii (s : String) : Bool := s.data.all (fun c => decide (c.toNat < 128))

/-- The upper-casing of the ASCII letters `a` to `z`. -/
def asciiUpperCase (s : String) : String := String.mk (s.data.map Char.toUpper)

/-- JavaScript strings: `String.prototype.toUpperCase` is any function `upper` that upper-cases
ASCII strings as ASCII does; on other characters nothing is assumed. -/
class JsString where
  upper : String → String
  upper_ascii : ∀ s : String, isAscii s = true → upper s = asciiUpperCase s

/-- JavaScript `String.prototype.toUpperCase`. -/
def toUpperCase [JsString] (s : String) : String := JsString.upper s

/-- The ASCII upper-casing is such a function. It is the one that evaluates the examples,
whose strings are ASCII, so that every other choice gives the same values there. -/
instance asciiJsString : JsString := ⟨asciiUpperCase, fun _ _ => rfl⟩

/-- The power of two with an integer exponent. -/
def pow2 (e : Int) : ℚ :=
  if 0 ≤ e then ((2 ^ e.toNat : Nat) : ℚ) else 1 / ((2 ^ (-e).toNat : Nat) : ℚ)

/-- The number of halvings that bring `n` below 2, at most `fuel` of them. -/
def log2Fuel : Nat → Nat → Nat
  | 0, _ => 0
  | fuel + 1, n => if 2 ≤ n then log2Fuel fuel (n / 2) + 1 else 0

/-- The binary logarithm of a natural number, rounded down (0 for 0). -/
def log2Nat (n : Nat) : Nat := log2Fuel n n

/-- The exponent of a non-zero rational: the greatest `e` with `2 ^ e ≤ |x|`. -/
def floorLog2 (x : ℚ) : Int :=
  let e : Int := (log2Nat x.num.natAbs : Int) - (log2Nat x.den : Int)
  if |x| < pow2 e then e - 1 else e

/-- Rounding to the nearest integer, ties to the even one. -/
def roundHalfEven (x : ℚ) : Int :=
  let f := ⌊x⌋
  if x - f < 1 / 2 then f
  else if 1 / 2 < x - f then f + 1
  else if f % 2 = 0 then f else f + 1

/-- The IEEE-754 binary64 value nearest to a rational, ties to even: 53 significant bits
(exponent range not bounded: overflow and subnormal numbers are left out). -/
def roundDouble (x : ℚ) : ℚ :=
  if x = 0 then 0
  else (roundHalfEven (x / pow2 (floorLog2 x - 52)) : ℚ) * pow2 (floorLog2 x - 52)

/-- The product `a * b` of two doubles, as JavaScript computes it: the exact product, rounded. -/
def doubleMul (a b : ℚ) : ℚ := roundDouble (a * b)

/-! ## Array helpers -/

/-- JavaScript `Array.prototype.findIndex`, with `none` for `-1`. -/
def findIndex {α : Type} (p : α → Bool) : List α → Option Nat
  | [] => none
  | x :: xs => if p x then some 0 else (findIndex p xs).map (· + 1)

/-- In-place update `arr[i] = f(arr[i])`. -/
def updateAt {α : Type} (f : α → α) : Nat → List α → List α
  | _, [] => []
  | 0, x :: xs => f x :: xs
  | i + 1, x :: xs => x :: updateAt f i xs

/-- The first document satisfying `p` is overwritten by `d` (`updateOne` by `_id`). -/
def replaceFirst {α : Type} (p : α → Bool) (d : α) : List α → List α
  | [] => []
  | x :: xs => if p x then d :: xs else x :: replaceFirst p d xs

/-- The reduction `items.reduce((sum, item) => sum + item.totalPrice, 0)`. -/
def sumTotalPrice (items : List CartItem) : ℚ :=
  items.foldl (fun sum item => sum + item.totalPrice) 0

/-! ## Store access -/

/-- `Cart.findOne({ userId })`: the filter value is cast to an ObjectId. -/
def findCart (st : Store) (userId : String) : Option Cart :=
  st.carts.find? (fun c => c.userId == castObjectId userId)

/-- `new Cart({ userId, items: [] })` with the schema defaults; `userId` is cast to an
ObjectId. -/
def newCart (st : Store) (userId : String) (now : Nat) : Cart :=
  { id := st.nextId, userId := castObjectId userId, items := [], totalAmount := 0,
    discount := 0, discountCode := none, finalAmount := 0, updatedAt := now }

/-- `cart.save()`: insert when the document was made by `new Cart`, overwrite by `_id` when it
was loaded. -/
def saveCart (st : Store) (isNew : Bool) (cart : Cart) : Store :=
  if isNew then { st with carts := st.carts ++ [cart], nextId := st.nextId + 1 }
  else { st with carts := replaceFirst (fun c => c.id == cart.id) cart st.carts }

/-- `let cart = await Cart.findOne(...); if (!cart) cart = new Cart(...)`: the document and
whether it is new. -/
def cartOrNew (st : Store) (userId : String) (now : Nat) : Cart × Bool :=
  match findCart st userId with
  | some cart => (cart, false)
  | none => (newCart st userId now, true)

/-- The three assignments that end every item mutation:
`cart.totalAmount = reduce(...)`, `cart.finalAmount = cart.totalAmount - cart.discount`,
`cart.updatedAt = Date.now()`. -/
def recompute (cart : Cart) (items : List CartItem) (now : Nat) : Cart :=
  { cart with
    items := items
    totalAmount := sumTotalPrice items
    finalAmount := sumTotalPrice items - cart.discount
    updatedAt := now }

/-! ## Cart endpoints -/

/-- Handler of `GET /api/cart`. -/
def getCart (st : Store) (userId : String) (now : Nat) : Store × Response Cart :=
  match findCart st userId with
  | some cart => (st, .success none cart)
  | none =>
    let cart := newCart st userId now
    (saveCart st true cart, .success none cart)

/-- Handler of `GET /api/cart/count`. -/
def count (st : Store) (userId : String) : Store × Response Int :=
  match findCart st userId with
  | some cart => (st, .success none (cart.items.foldl (fun sum item => sum + item.quantity) 0))
  | none => (st, .success none 0)

/-- The item mutation of `POST /api/cart/add` (lines 156-173). The test of `findIndex` compares
the stored `toString()` with the `productId` as sent; the pushed `productId` is cast to an
ObjectId. -/
def addItemLines (items : List CartItem) (productId sku name : String) (quantity : Int)
    (unitPrice : ℚ) : List CartItem :=
  match findIndex (fun item => item.productId == productId) items with
  | some existingItemIndex =>
    updateAt (fun item =>
      { item with
        quantity := item.quantity + quantity
        totalPrice := ((item.quantity + quantity : Int) : ℚ) * unitPrice }) existingItemIndex items
  | none =>
    items ++ [{ productId := castObjectId productId, sku := sku, name := name,
                quantity := quantity, unitPrice := unitPrice,
                totalPrice := (quantity : ℚ) * unitPrice }]

/-- Handler of `POST /api/cart/add`. -/
def addItem (st : Store) (userId : String) (now : Nat) (productId sku name : String)
    (quantity : Int) (unitPrice : ℚ) : Store × Response Cart :=
  let (cart, isNew) := cartOrNew st userId now
  let cart := recompute cart (addItemLines cart.items productId sku name quantity unitPrice) now
  (saveCart st isNew cart, .success (some "Item added to cart") cart)

/-- The item mutation of `PUT /api/cart/update/:productId` (lines 220-226), at the index found
by `findIndex`. -/
def updateQuantityLines (items : List CartItem) (itemIndex : Nat) (quantity : Int) :
    List CartItem :=
  if quantity ≤ 0 then items.eraseIdx itemIndex
  else updateAt (fun item =>
    { item with quantity := quantity, totalPrice := (quantity : ℚ) * item.unitPrice })
    itemIndex items

/-- Handler of `PUT /api/cart/update/:productId`. -/
def updateQuantity (st : Store) (userId : String) (now : Nat) (productId : String)
    (quantity : Int) : Store × Response Cart :=
  match findCart st userId with
  | none => (st, .failure 404 "Cart not found")
  | some cart =>
    match findIndex (fun item => item.productId == productId) cart.items with
    | none => (st, .failure 404 "Item not found in cart")
    | some itemIndex =>
      let cart := recompute cart (updateQuantityLines cart.items itemIndex quantity) now
      (saveCart st false cart, .success (some "Cart updated") cart)

/-- Handler of `DELETE /api/cart/remove/:productId`. -/
def removeItem (st : Store) (userId : String) (now : Nat) (productId : String) :
    Store × Response Cart :=
  match findCart st userId with
  | none => (st, .failure 404 "Cart not found")
  | some cart =>
    let cart := recompute cart (cart.items.filter (fun item => item.productId != productId)) now
    (saveCart st false cart, .success (some "Item removed from cart") cart)

/-- The table `discountCodes`; `none` is the `undefined` of a missing key. -/
def discountCodes (key : String) : Option ℚ :=
  if key = "SAVE10" then some (10 / 100)
  else if key = "SAVE20" then some (20 / 100)
  else if key = "WELCOME" then some (15 / 100)
  else if key = "FIRSTORDER" then some (25 / 100)
  else none

/-- Handler of `POST /api/cart/apply-discount`. The test `!discountRate` also rejects a rate
equal to `0`. -/
def applyDiscount [JsString] (st : Store) (userId : String) (now : Nat) (code : String) :
    Store × Response Cart :=
  match findCart st userId with
  | none => (st, .failure 404 "Cart not found")
  | some cart =>
    match discountCodes (toUpperCase code) with
    | none => (st, .failure 400 "Invalid discount code")
    | some discountRate =>
      if discountRate = 0 then (st, .failure 400 "Invalid discount code")
      else
        let cart := { cart with
          discount := cart.totalAmount * discountRate
          discountCode := some (toUpperCase code)
          finalAmount := cart.totalAmount - cart.totalAmount * discountRate
          updatedAt := now }
        (saveCart st false cart, .success (some "Discount applied successfully") cart)

/-- Handler of `DELETE /api/cart/remove-discount`. -/
def removeDiscount (st : Store) (userId : String) (now : Nat) : Store × Response Cart :=
  match findCart st userId with
  | none => (st, .failure 404 "Cart not found")
  | some cart =>
    let cart := { cart with
      discount := 0
      discountCode := none
      finalAmount := cart.totalAmount
      updatedAt := now }
    (saveCart st false cart, .success (some "Discount removed") cart)

/-- Handler of `POST /api/cart/validate`; the data is `isValid` (the list `unavailableItems` is
always empty). -/
def validate (st : Store) (userId : String) : Store × Response Bool :=
  match findCart st userId with
  | none => (st, .failure 400 "Cart is empty")
  | some cart =>
    if cart.items.length = 0 then (st, .failure 400 "Cart is empty")
    else (st, .success (some "Cart is valid") true)

/-- Handler of `POST /api/cart/save`. An absent or empty `name` gives the default name
`Saved Cart ${now}`; `userId` is cast to an ObjectId. -/
def save (st : Store) (userId : String) (now : Nat) (name : Option String) :
    Store × Response SavedCart :=
  match findCart st userId with
  | none => (st, .failure 400 "Cart is empty")
  | some cart =>
    if cart.items.length = 0 then (st, .failure 400 "Cart is empty")
    else
      let savedCart : SavedCart :=
        { id := st.nextId
          userId := castObjectId userId
          name := match name with
            | some n => if n = "" then "Saved Cart " ++ toString now else n
            | none => "Saved Cart " ++ toString now
          items := cart.items
          totalAmount := cart.totalAmount
          savedAt := now }
      ({ st with savedCarts := st.savedCarts ++ [savedCart], nextId := st.nextId + 1 },
        .success (some "Cart saved successfully") savedCart)

/-- Insertion into a list sorted by `savedAt`, newest first. -/
def insertBySavedAt (s : SavedCart) : List SavedCart → List SavedCart
  | [] => [s]
  | x :: xs => if x.savedAt ≤ s.savedAt then s :: x :: xs else x :: insertBySavedAt s xs

/-- Handler of `GET /api/cart/saved`: `SavedCart.find({ userId }).sort({ savedAt: -1 })`; the
filter value is cast to an ObjectId. -/
def listSaved (st : Store) (userId : String) : Store × Response (List SavedCart) :=
  (st, .success none
    ((st.savedCarts.filter (fun s => s.userId == castObjectId userId)).foldr
      insertBySavedAt []))

/-- `SavedCart.findById(id)`. -/
def findSavedById (st : Store) (savedCartId : Nat) : Option SavedCart :=
  st.savedCarts.find? (fun s => s.id == savedCartId)

/-- Handler of `POST /api/cart/restore/:savedCartId`. -/
def restore (st : Store) (userId : String) (now : Nat) (savedCartId : Nat) :
    Store × Response Cart :=
  match findSavedById st savedCartId with
  | none => (st, .failure 404 "Saved cart not found")
  | some savedCart =>
    if savedCart.userId != userId then (st, .failure 403 "Access denied")
    else
      let (cart, isNew) := cartOrNew st userId now
      let cart := { cart with
        items := savedCart.items
        totalAmount := savedCart.totalAmount
        finalAmount := savedCart.totalAmount - cart.discount
        updatedAt := now }
      (saveCart st isNew cart, .success (some "Cart restored successfully") cart)

/-- `SavedCart.findByIdAndDelete(id)`: the first document with that `_id` is removed. -/
def deleteFirst {α : Type} (p : α → Bool) : List α → List α
  | [] => []
  | x :: xs => if p x then xs else x :: deleteFirst p xs

/-- Handler of `DELETE /api/cart/saved/:savedCartId`. -/
def deleteSaved (st : Store) (userId : String) (savedCartId : Nat) : Store × Response Unit :=
  match findSavedById st savedCartId with
  | none => (st, .failure 404 "Saved cart not found")
  | some savedCart =>
    if savedCart.userId != userId then (st, .failure 403 "Access denied")
    else
      ({ st with savedCarts := deleteFirst (fun s => s.id == savedCartId) st.savedCarts },
        .success (some "Saved cart deleted successfully") ())

/-- One turn of the `guestCart.forEach` loop of `POST /api/cart/merge` (lines 533-543). The
test of `findIndex` compares the stored `toString()` with the guest item's `productId` as
sent; in the pushed item the `productId` is cast to an ObjectId. -/
def mergeGuestItem (items : List CartItem) (guestItem : CartItem) : List CartItem :=
  match findIndex (fun item => item.productId == guestItem.productId) items with
  | some existingItemIndex =>
    updateAt (fun item =>
      { item with
        quantity := item.quantity + guestItem.quantity
        totalPrice := ((item.quantity + guestItem.quantity : Int) : ℚ) * item.unitPrice })
      existingItemIndex items
  | none => items ++ [{ guestItem with productId := castObjectId guestItem.productId }]

/-- Handler of `POST /api/cart/merge`. -/
def merge (st : Store) (userId : String) (now : Nat) (guestCart : List CartItem) :
    Store × Response Cart :=
  let (cart, isNew) := cartOrNew st userId now
  let cart := recompute cart (guestCart.foldl mergeGuestItem cart.items) now
  (saveCart st isNew cart, .success (some "Carts merged successfully") cart)

/-- Handler of `DELETE /api/cart/clear`. -/
def clear (st : Store) (userId : String) (now : Nat) : Store × Response Cart :=
  match findCart st userId with
  | none => (st, .failure 404 "Cart not found")
  | some cart =>
    let cart := { cart with
      items := []
      totalAmount := 0
      discount := 0
      discountCode := none
      finalAmount := 0
      updatedAt := now }
    (saveCart st false cart, .success (some "Cart cleared") cart)

/-! ## Wishlist endpoints -/

/-- `Wishlist.findOne({ userId })`: the filter value is cast to an ObjectId. -/
def findWishlist (st : Store) (userId : String) : Option Wishlist :=
  st.wishlists.find? (fun w => w.userId == castObjectId userId)

/-- `new Wishlist({ userId, items: [] })` with the schema defaults; `userId` is cast to an
ObjectId. -/
def newWishlist (st : Store) (userId : String) (now : Nat) : Wishlist :=
  { id := st.nextId, userId := castObjectId userId, items := [], updatedAt := now }

/-- `wishlist.save()`: insert when the document was made by `new Wishlist`, overwrite by `_id`
when it was loaded. -/
def saveWishlist (st : Store) (isNew : Bool) (wishlist : Wishlist) : Store :=
  if isNew then { st with wishlists := st.wishlists ++ [wishlist], nextId := st.nextId + 1 }
  else { st with wishlists := replaceFirst (fun w => w.id == wishlist.id) wishlist st.wishlists }

/-- Handler of `GET /api/wishlist`. -/
def wishlistGet (st : Store) (userId : String) (now : Nat) : Store × Response Wishlist :=
  match findWishlist st userId with
  | some wishlist => (st, .success none wishlist)
  | none =>
    let wishlist := newWishlist st userId now
    (saveWishlist st true wishlist, .success none wishlist)

/-- Handler of `POST /api/wishlist/add`. The test of `find` compares the stored `toString()`
with the `productId` as sent; the pushed `productId` is cast to an ObjectId. The new item gets
the schema default `addedAt = Date.now()`. -/
def wishlistAddItem (st : Store) (userId : String) (now : Nat) (productId sku name : String)
    (unitPrice : ℚ) : Store × Response Wishlist :=
  let (wishlist, isNew) :=
    match findWishlist st userId with
    | some wishlist => (wishlist, false)
    | none => (newWishlist st userId now, true)
  match wishlist.items.find? (fun item => item.productId == productId) with
  | some _ => (st, .failure 400 "Item already in wishlist")
  | none =>
    let wishlist := { wishlist with
      items := wishlist.items ++
        [{ productId := castObjectId productId, sku := sku, name := name,
           unitPrice := unitPrice, addedAt := now }]
      updatedAt := now }
    (saveWishlist st isNew wishlist, .success (some "Item added to wishlist") wishlist)

/-- Handler of `DELETE /api/wishlist/remove/:productId`. -/
def wishlistRemoveItem (st : Store) (userId : String) (now : Nat) (productId : String) :
    Store × Response Wishlist :=
  match findWishlist st userId with
  | none => (st, .failure 404 "Wishlist not found")
  | some wishlist =>
    let wishlist := { wishlist with
      items := wishlist.items.filter (fun item => item.productId != productId)
      updatedAt := now }
    (saveWishlist st false wishlist, .success (some "Item removed from wishlist") wishlist)

/-- The cart item mutation of `POST /api/wishlist/move-to-cart/:productId` (lines 736-753);
`item` is the wishlist item that was found, `mul` is the product `*` of JavaScript numbers. -/
def moveToCartLinesWith (mul : ℚ → ℚ → ℚ) (items : List CartItem) (item : WishlistItem)
    (productId : String) (quantity : Int) : List CartItem :=
  match findIndex (fun cartItem => cartItem.productId == productId) items with
  | some existingCartItemIndex =>
    updateAt (fun cartItem =>
      { cartItem with
        quantity := cartItem.quantity + quantity
        totalPrice := mul ((cartItem.quantity + quantity : Int) : ℚ) item.unitPrice })
      existingCartItemIndex items
  | none =>
    items ++ [{ productId := item.productId, sku := item.sku, name := item.name,
                quantity := quantity, unitPrice := item.unitPrice,
                totalPrice := mul (quantity : ℚ) item.unitPrice }]

/-- The cart item mutation of `POST /api/wishlist/move-to-cart/:productId` with the exact
product. -/
def moveToCartLines (items : List CartItem) (item : WishlistItem) (productId : String)
    (quantity : Int) : List CartItem :=
  moveToCartLinesWith (fun a b => a * b) items item productId quantity

/-- Handler of `POST /api/wishlist/move-to-cart/:productId` (lines 705-777); `quantity` is the
body field after its default of `1` has been applied, `mul` is the product `*` of JavaScript
numbers. The data is `{ cart, wishlist }`. -/
def moveToCartWith (mul : ℚ → ℚ → ℚ) (st : Store) (userId : String) (now : Nat)
    (productId : String) (quantity : Int) : Store × Response (Cart × Wishlist) :=
  match findWishlist st userId with
  | none => (st, .failure 404 "Wishlist not found")
  | some wishlist =>
    match wishlist.items.find? (fun item => item.productId == productId) with
    | none => (st, .failure 404 "Item not found in wishlist")
    | some item =>
      let (cart, isNew) := cartOrNew st userId now
      let cart := recompute cart (moveToCartLinesWith mul cart.items item productId quantity) now
      let st := saveCart st isNew cart
      let wishlist := { wishlist with
        items := wishlist.items.filter (fun item => item.productId != productId)
        updatedAt := now }
      (saveWishlist st false wishlist, .success (some "Item moved to cart") (cart, wishlist))

/-- Handler of `POST /api/wishlist/move-to-cart/:productId` with the exact product. -/
def moveToCart (st : Store) (userId : String) (now : Nat) (productId : String)
    (quantity : Int) : Store × Response (Cart × Wishlist) :=
  moveToCartWith (fun a b => a * b) st userId now productId quantity

/-- Handler of `DELETE /api/wishlist/clear`. -/
def wishlistClear (st : Store) (userId : String) (now : Nat) : Store × Response Wishlist :=
  match findWishlist st userId with
  | none => (st, .failure 404 "Wishlist not found")
  | some wishlist =>
    let wishlist := { wishlist with items := [], updatedAt := now }
    (saveWishlist st false wishlist, .success (some "Wishlist cleared") wishlist)

/-! ## Requests and reachable stores -/

/-- A request of an authenticated user: one constructor per route, with the route's
parameters and body fields. -/
inductive Request where
  | getCart
  | count
  | addItem (productId sku name : String) (quantity : Int) (unitPrice : ℚ)
  | updateQuantity (productId : String) (quantity : Int)
  | removeItem (productId : String)
  | applyDiscount (code : String)
  | removeDiscount
  | validate
  | save (name : Option String)
  | listSaved
  | restore (savedCartId : Nat)
  | deleteSaved (savedCartId : Nat)
  | merge (guestCart : List CartItem)
  | clear
  | wishlistGet
  | wishlistAddItem (productId sku name : String) (unitPrice : ℚ)
  | wishlistRemoveItem (productId : String)
  | moveToCart (productId : String) (quantity : Int)
  | wishlistClear
deriving DecidableEq, Repr

/-- The store after the handler of a request has run. -/
def handle [JsString] (st : Store) (userId : String) (now : Nat) : Request → Store
  | .getCart => (getCart st userId now).1
  | .count => (count st userId).1
  | .addItem productId sku name quantity unitPrice =>
    (addItem st userId now productId sku name quantity unitPrice).1
  | .updateQuantity productId quantity => (updateQuantity st userId now productId quantity).1
  | .removeItem productId => (removeItem st userId now productId).1
  | .applyDiscount code => (applyDiscount st userId now code).1
  | .removeDiscount => (removeDiscount st userId now).1
  | .validate => (validate st userId).1
  | .save name => (save st userId now name).1
  | .listSaved => (listSaved st userId).1
  | .restore savedCartId => (restore st userId now savedCartId).1
  | .deleteSaved savedCartId => (deleteSaved st userId savedCartId).1
  | .merge guestCart => (merge st userId now guestCart).1
  | .clear => (clear st userId now).1
  | .wishlistGet => (wishlistGet st userId now).1
  | .wishlistAddItem productId sku name unitPrice =>
    (wishlistAddItem st userId now productId sku name unitPrice).1
  | .wishlistRemoveItem productId => (wishlistRemoveItem st userId now productId).1
  | .moveToCart productId quantity => (moveToCart st userId now productId quantity).1
  | .wishlistClear => (wishlistClear st userId now).1

/-- The stores the server can be in: the empty store, and what any request of any user at any
time makes of a reachable store. -/
inductive Reachable [JsString] : Store → Prop where
  | empty : Reachable Store.empty
  | step {st : Store} (userId : String) (now : Nat) (req : Request) :
      Reachable st → Reachable (handle st userId now req)

/-! ## The merge rule in the words of the specification -/

/-- Specification of merge: the cart has a line with this productId. -/
def specHasLine (items : List CartItem) (productId : String) : Bool :=
  items.any (fun item => item.productId == productId)

/-- Specification of merge: the guest quantity is added to the line with this productId (the
first one met), whose totalPrice becomes the new quantity times the line's existing
unitPrice. -/
def specAddToLine (productId : String) (guestQuantity : Int) : List CartItem → List CartItem
  | [] => []
  | line :: rest =>
    if line.productId = productId then
      { line with
        quantity := line.quantity + guestQuantity
        totalPrice := ((line.quantity + guestQuantity : Int) : ℚ) * line.unitPrice } :: rest
    else line :: specAddToLine productId guestQuantity rest

/-- Specification of merge, the rule for one guest item: add to the line with its productId
if the cart has one, otherwise append the guest item with all its fields as they are, its
productId being stored as an ObjectId like every stored productId. -/
def specMergeRule (items : List CartItem) (guestItem : CartItem) : List CartItem :=
  if specHasLine items guestItem.productId then
    specAddToLine guestItem.productId guestItem.quantity items
  else items ++ [{ guestItem with productId := castObjectId guestItem.productId }]

/-- Specification of merge: the guest items are processed left to right. -/
def specMerge (items guestItems : List CartItem) : List CartItem :=
  match guestItems with
  | [] => items
  | guestItem :: rest => specMerge (specMergeRule items guestItem) rest

/-! ## The store invariant -/

/-- A cart document is consistent: the two derived amounts agree with the items and the
discount. -/
structure CartOk (c : Cart) : Prop where
  final : c.finalAmount = c.totalAmount - c.discount
  total : c.totalAmount = (c.items.map (fun item => item.totalPrice)).sum

/-- A saved cart is a snapshot of a consistent cart. -/
structure SavedOk (s : SavedCart) : Prop where
  total : s.totalAmount = (s.items.map (fun item => item.totalPrice)).sum

/-- The invariant of the store: `_id` values are distinct within a collection and below the
counter, and every cart and saved cart is consistent. -/
structure Inv (st : Store) : Prop where
  cartIds : (st.carts.map (fun c => c.id)).Nodup
  cartFresh : ∀ c ∈ st.carts, c.id < st.nextId
  wishIds : (st.wishlists.map (fun w => w.id)).Nodup
  wishFresh : ∀ w ∈ st.wishlists, w.id < st.nextId
  savedIds : (st.savedCarts.map (fun s => s.id)).Nodup
  savedFresh : ∀ s ∈ st.savedCarts, s.id < st.nextId
  cartOk : ∀ c ∈ st.carts, CartOk c
  savedOk : ∀ s ∈ st.savedCarts, SavedOk s

/-! ## Further predicates on stores and requests -/

/-- At most one cart document per user. -/
def CartOwners (st : Store) : Prop := (st.carts.map (fun c => c.userId)).Nodup

/-- Every line of every cart and of every saved cart has quantity at least 1. -/
def QuantitiesOk (st : Store) : Prop :=
  (∀ c ∈ st.carts, ∀ item ∈ c.items, 1 ≤ item.quantity) ∧
  (∀ s ∈ st.savedCarts, ∀ item ∈ s.items, 1 ≤ item.quantity)

/-- The quantities a request brings into a cart are at least 1: the `quantity` of `addItem`
and of `moveToCart`, and the quantity of every guest item of `merge`. The `quantity` of
`updateQuantity` is not constrained. -/
def Request.quantitiesPositive : Request → Prop
  | .addItem _ _ _ quantity _ => 1 ≤ quantity
  | .moveToCart _ quantity => 1 ≤ quantity
  | .merge guestCart => ∀ guestItem ∈ guestCart, 1 ≤ guestItem.quantity
  | _ => True

/-- The stores reachable by requests whose incoming quantities are at least 1. -/
inductive ReachablePositive [JsString] : Store → Prop where
  | empty : ReachablePositive Store.empty
  | step {st : Store} (userId : String) (now : Nat) (req : Request) :
      req.quantitiesPositive → ReachablePositive st →
      ReachablePositive (handle st userId now req)

/-- The requests that change the lines of the user's cart without naming a discount. -/
inductive LineMutation where
  | addItem (productId sku name : String) (quantity : Int) (unitPrice : ℚ)
  | updateQuantity (productId : String) (quantity : Int)
  | removeItem (productId : String)
  | merge (guestCart : List CartItem)
  | restore (savedCartId : Nat)
  | moveToCart (productId : String) (quantity : Int)
deriving DecidableEq, Repr

/-- The request a line mutation stands for. -/
def LineMutation.toRequest : LineMutation → Request
  | .addItem productId sku name quantity unitPrice =>
    .addItem productId sku name quantity unitPrice
  | .updateQuantity productId quantity => .updateQuantity productId quantity
  | .removeItem productId => .removeItem productId
  | .merge guestCart => .merge guestCart
  | .restore savedCartId => .restore savedCartId
  | .moveToCart productId quantity => .moveToCart productId quantity

/-! ## What a request answers, and what a user can see -/

/-- The answer of any route: the answer of its handler, tagged with the shape of its data. -/
inductive Reply where
  | cart (response : Response Cart)
  | count (response : Response Int)
  | valid (response : Response Bool)
  | saved (response : Response SavedCart)
  | savedList (response : Response (List SavedCart))
  | deleted (response : Response Unit)
  | wishlist (response : Response Wishlist)
  | moved (response : Response (Cart × Wishlist))
deriving DecidableEq, Repr

/-- What the handler of a request sends back. -/
def reply [JsString] (st : Store) (userId : String) (now : Nat) : Request → Reply
  | .getCart => .cart (getCart st userId now).2
  | .count => .count (count st userId).2
  | .addItem productId sku name quantity unitPrice =>
    .cart (addItem st userId now productId sku name quantity unitPrice).2
  | .updateQuantity productId quantity =>
    .cart (updateQuantity st userId now productId quantity).2
  | .removeItem productId => .cart (removeItem st userId now productId).2
  | .applyDiscount code => .cart (applyDiscount st userId now code).2
  | .removeDiscount => .cart (removeDiscount st userId now).2
  | .validate => .valid (validate st userId).2
  | .save name => .saved (save st userId now name).2
  | .listSaved => .savedList (listSaved st userId).2
  | .restore savedCartId => .cart (restore st userId now savedCartId).2
  | .deleteSaved savedCartId => .deleted (deleteSaved st userId savedCartId).2
  | .merge guestCart => .cart (merge st userId now guestCart).2
  | .clear => .cart (clear st userId now).2
  | .wishlistGet => .wishlist (wishlistGet st userId now).2
  | .wishlistAddItem productId sku name unitPrice =>
    .wishlist (wishlistAddItem st userId now productId sku name unitPrice).2
  | .wishlistRemoveItem productId => .wishlist (wishlistRemoveItem st userId now productId).2
  | .moveToCart productId quantity => .moved (moveToCart st userId now productId quantity).2
  | .wishlistClear => .wishlist (wishlistClear st userId now).2

/-- The request is a restore or a deleteSaved whose id is that of an existing saved cart of
another user: its owner is not the ObjectId of `userId`. -/
def namesForeignSavedCart (st : Store) (userId : String) : Request → Prop
  | .restore savedCartId =>
    ∃ s, findSavedById st savedCartId = some s ∧ s.userId ≠ castObjectId userId
  | .deleteSaved savedCartId =>
    ∃ s, findSavedById st savedCartId = some s ∧ s.userId ≠ castObjectId userId
  | _ => False

/-- Two stores hold the same documents for a user (cart, wishlist, saved carts) and draw fresh
`_id` values from the same counter value. -/
def sameViewFor (userId : String) (st1 st2 : Store) : Prop :=
  findCart st1 userId = findCart st2 userId ∧
  findWishlist st1 userId = findWishlist st2 userId ∧
  st1.savedCarts.filter (fun s => s.userId == castObjectId userId)
    = st2.savedCarts.filter (fun s => s.userId == castObjectId userId) ∧
  st1.nextId = st2.nextId

/-! ## The ObjectId cast -/

theorem lowerHexChar_idem (c : Char) : lowerHexChar (lowerHexChar c) = lowerHexChar c := by
  by_cases hA : c = 'A'
  · subst hA; rfl
  by_cases hB : c = 'B'
  · subst hB; rfl
  by_cases hC : c = 'C'
  · subst hC; rfl
  by_cases hD : c = 'D'
  · subst hD; rfl
  by_cases hE : c = 'E'
  · subst hE; rfl
  by_cases hF : c = 'F'
  · subst hF; rfl
  have h : lowerHexChar c = c := by simp only [lowerHexChar, hA, hB, hC, hD, hE, hF, if_false]
  rw [h, h]

theorem castObjectId_idem (s : String) : castObjectId (castObjectId s) = castObjectId s := by
  simp only [castObjectId, List.map_map]
  congr 1
  apply List.map_congr_left
  intro c _
  exact lowerHexChar_idem c

/-! ## Lemmas on the array helpers -/

theorem findIndex_eq_none {α : Type} (p : α → Bool) (l : List α) :
    findIndex p l = none ↔ ∀ y ∈ l, p y = false := by
  induction l with
  | nil => simp [findIndex]
  | cons x xs ih =>
    by_cases hx : p x = true
    · simp [findIndex, hx]
    · simp only [Bool.not_eq_true] at hx
      simp [findIndex, hx, ih]

theorem findIndex_eq_some {α : Type} (p : α → Bool) (l : List α) (i : Nat)
    (h : findIndex p l = some i) :
    ∃ pre x post, l = pre ++ x :: post ∧ p x = true ∧ (∀ y ∈ pre, p y = false) ∧
      i = pre.length := by
  induction l generalizing i with
  | nil => simp [findIndex] at h
  | cons a as ih =>
    by_cases ha : p a = true
    · simp only [findIndex, ha, if_true, Option.some.injEq] at h
      exact ⟨[], a, as, rfl, ha, by simp, by simp [← h]⟩
    · simp only [Bool.not_eq_true] at ha
      simp only [findIndex, ha, Bool.false_eq_true, if_false, Option.map_eq_some'] at h
      obtain ⟨j, hj, rfl⟩ := h
      obtain ⟨pre, x, post, rfl, hx, hpre, rfl⟩ := ih j hj
      refine ⟨a :: pre, x, post, rfl, hx, ?_, rfl⟩
      intro y hy
      rcases List.mem_cons.1 hy with rfl | hy
      · exact ha
      · exact hpre y hy

theorem findIndex_append_cons {α : Type} (p : α → Bool) (pre post : List α) (x : α)
    (hx : p x = true) (hpre : ∀ y ∈ pre, p y = false) :
    findIndex p (pre ++ x :: post) = some pre.length := by
  induction pre with
  | nil => simp [findIndex, hx]
  | cons a as ih =>
    have ha : p a = false := hpre a (List.mem_cons_self _ _)
    have := ih (fun y hy => hpre y (List.mem_cons_of_mem _ hy))
    simp [findIndex, ha, this]

theorem updateAt_append_cons {α : Type} (f : α → α) (pre post : List α) (x : α) :
    updateAt f pre.length (pre ++ x :: post) = pre ++ f x :: post := by
  induction pre with
  | nil => rfl
  | cons a as ih => simp [updateAt, ih]

theorem eraseIdx_append_cons {α : Type} (pre post : List α) (x : α) :
    (pre ++ x :: post).eraseIdx pre.length = pre ++ post := by
  induction pre with
  | nil => rfl
  | cons a as ih => simp [List.eraseIdx, ih]

theorem mem_replaceFirst {α : Type} (p : α → Bool) (d x : α) (l : List α)
    (h : x ∈ replaceFirst p d l) : x = d ∨ x ∈ l := by
  induction l with
  | nil => simp [replaceFirst] at h
  | cons a as ih =>
    by_cases ha : p a = true
    · simp only [replaceFirst, ha, if_true, List.mem_cons] at h
      rcases h with h | h
      · exact Or.inl h
      · exact Or.inr (List.mem_cons_of_mem _ h)
    · simp only [replaceFirst, ha, Bool.false_eq_true, if_false, List.mem_cons] at h
      rcases h with h | h
      · exact Or.inr (h ▸ List.mem_cons_self _ _)
      · rcases ih h with h | h
        · exact Or.inl h
        · exact Or.inr (List.mem_cons_of_mem _ h)

theorem map_replaceFirst {α β : Type} (p : α → Bool) (d : α) (f : α → β) (l : List α)
    (h : ∀ x ∈ l, p x = true → f x = f d) :
    (replaceFirst p d l).map f = l.map f := by
  induction l with
  | nil => rfl
  | cons a as ih =>
    by_cases ha : p a = true
    · simp [replaceFirst, ha, h a (List.mem_cons_self _ _) ha]
    · simp [replaceFirst, ha, ih (fun x hx => h x (List.mem_cons_of_mem _ hx))]

theorem mem_deleteFirst {α : Type} (p : α → Bool) (x : α) (l : List α)
    (h : x ∈ deleteFirst p l) : x ∈ l := by
  induction l with
  | nil => simp [deleteFirst] at h
  | cons a as ih =>
    by_cases ha : p a = true
    · simp only [deleteFirst, ha, if_true] at h
      exact List.mem_cons_of_mem _ h
    · simp only [deleteFirst, ha, Bool.false_eq_true, if_false, List.mem_cons] at h
      rcases h with h | h
      · exact h ▸ List.mem_cons_self _ _
      · exact List.mem_cons_of_mem _ (ih h)

theorem deleteFirst_sublist {α : Type} (p : α → Bool) (l : List α) :
    List.Sublist (deleteFirst p l) l := by
  induction l with
  | nil => exact List.Sublist.slnil
  | cons a as ih =>
    by_cases ha : p a = true
    · simp only [deleteFirst, ha, if_true]
      exact List.sublist_cons_self _ _
    · simp only [deleteFirst, ha, Bool.false_eq_true, if_false]
      exact List.Sublist.cons₂ _ ih

theorem sumTotalPrice_eq_sum (items : List CartItem) :
    sumTotalPrice items = (items.map (fun item => item.totalPrice)).sum := by
  have aux : ∀ (l : List CartItem) (a : ℚ),
      l.foldl (fun sum item => sum + item.totalPrice) a
        = a + (l.map (fun item => item.totalPrice)).sum := by
    intro l
    induction l with
    | nil => intro a; simp
    | cons x xs ih => intro a; simp [List.foldl, ih, add_assoc]
  simpa [sumTotalPrice] using aux items 0

/-! ## Lookups after a save -/

theorem find?_replaceFirst_owner {α : Type} (ident : α → Nat) (owner : α → String)
    (l : List α) (u : String) (c d : α) (hnd : (l.map ident).Nodup)
    (hfind : l.find? (fun x => owner x == u) = some c) (hid : ident d = ident c)
    (hown : owner d = u) :
    (replaceFirst (fun x => ident x == ident d) d l).find? (fun x => owner x == u) = some d := by
  induction l with
  | nil => simp at hfind
  | cons a as ih =>
    by_cases ha : owner a = u
    · have hac : a = c := by simpa [List.find?_cons, ha] using hfind
      subst hac
      simp [replaceFirst, hid, hown]
    · have hfind2 : as.find? (fun x => owner x == u) = some c := by
        simpa [List.find?_cons, ha] using hfind
      have hc : c ∈ as := List.mem_of_find?_eq_some hfind2
      rw [List.map_cons, List.nodup_cons] at hnd
      have hne : ident a ≠ ident d := by
        intro h
        apply hnd.1
        rw [h, hid]
        exact List.mem_map_of_mem _ hc
      simp [replaceFirst, hne, List.find?_cons, ha, ih hnd.2 hfind2]

theorem find?_append_owner {α : Type} (owner : α → String) (l : List α) (u : String) (d : α)
    (hfind : l.find? (fun x => owner x == u) = none) (hown : owner d = u) :
    (l ++ [d]).find? (fun x => owner x == u) = some d := by
  simp [List.find?_append, hfind, hown]

theorem find?_append_ident {α : Type} (ident : α → Nat) (l : List α) (d : α)
    (hfresh : ∀ x ∈ l, ident x < ident d) :
    (l ++ [d]).find? (fun x => ident x == ident d) = some d := by
  have : l.find? (fun x => ident x == ident d) = none := by
    rw [List.find?_eq_none]
    intro x hx
    simpa using Nat.ne_of_lt (hfresh x hx)
  simp [List.find?_append, this]

/-! ## The invariant holds initially and after a save -/

theorem Inv.empty : Inv Store.empty := by
  constructor <;> simp [Store.empty]

theorem nodup_append_fresh (ids : List Nat) (n : Nat) (h : ids.Nodup) (hlt : ∀ i ∈ ids, i < n) :
    (ids ++ [n]).Nodup := by
  rw [List.nodup_append]
  refine ⟨h, List.nodup_singleton _, ?_⟩
  intro a ha hb
  simp only [List.mem_singleton] at hb
  subst hb
  exact Nat.lt_irrefl _ (hlt _ ha)

theorem findCart_mem {st : Store} {u : String} {c : Cart} (h : findCart st u = some c) :
    c ∈ st.carts ∧ c.userId = castObjectId u := by
  refine ⟨List.mem_of_find?_eq_some h, ?_⟩
  have := List.find?_some h
  simpa using this

theorem findWishlist_mem {st : Store} {u : String} {w : Wishlist}
    (h : findWishlist st u = some w) : w ∈ st.wishlists ∧ w.userId = castObjectId u := by
  refine ⟨List.mem_of_find?_eq_some h, ?_⟩
  have := List.find?_some h
  simpa using this

/-- Overwriting a loaded cart by a consistent one with the same `_id` keeps the invariant. -/
theorem Inv.saveCart_old {st : Store} (hst : Inv st) {c d : Cart} (hc : c ∈ st.carts)
    (hid : d.id = c.id) (hd : CartOk d) : Inv (saveCart st false d) := by
  have hmap : (replaceFirst (fun x => x.id == d.id) d st.carts).map (fun c => c.id)
      = st.carts.map (fun c => c.id) :=
    map_replaceFirst _ _ _ _ (fun x _ hx => by simpa using hx)
  refine ⟨?_, ?_, hst.wishIds, hst.wishFresh, hst.savedIds, hst.savedFresh, ?_, hst.savedOk⟩
  · simpa [saveCart, hmap] using hst.cartIds
  · intro x hx
    rcases mem_replaceFirst _ _ _ _ (by simpa [saveCart] using hx) with rfl | hx
    · simpa [saveCart, hid] using hst.cartFresh c hc
    · simpa [saveCart] using hst.cartFresh x hx
  · intro x hx
    rcases mem_replaceFirst _ _ _ _ (by simpa [saveCart] using hx) with rfl | hx
    · exact hd
    · exact hst.cartOk x hx

/-- Inserting a consistent cart whose `_id` is the counter keeps the invariant. -/
theorem Inv.saveCart_new {st : Store} (hst : Inv st) {d : Cart} (hid : d.id = st.nextId)
    (hd : CartOk d) : Inv (saveCart st true d) := by
  refine ⟨?_, ?_, hst.wishIds, ?_, hst.savedIds, ?_, ?_, hst.savedOk⟩
  · simp only [saveCart, if_true, List.map_append, List.map_cons, List.map_nil, hid]
    exact nodup_append_fresh _ _ hst.cartIds (by
      intro i hi
      obtain ⟨c, hc, rfl⟩ := List.mem_map.1 hi
      exact hst.cartFresh c hc)
  · intro x hx
    simp only [saveCart, if_true, List.mem_append, List.mem_singleton] at hx ⊢
    rcases hx with hx | rfl
    · exact Nat.lt_succ_of_lt (hst.cartFresh x hx)
    · simp [hid]
  · intro w hw
    exact Nat.lt_succ_of_lt (hst.wishFresh w (by simpa [saveCart] using hw))
  · intro s hs
    exact Nat.lt_succ_of_lt (hst.savedFresh s (by simpa [saveCart] using hs))
  · intro x hx
    simp only [saveCart, if_true, List.mem_append, List.mem_singleton] at hx
    rcases hx with hx | rfl
    · exact hst.cartOk x hx
    · exact hd

/-- The save that follows `cartOrNew` keeps the invariant. -/
theorem Inv.saveCart_cartOrNew {st : Store} (hst : Inv st) (u : String) (now : Nat) {d : Cart}
    (hid : d.id = (cartOrNew st u now).1.id) (hd : CartOk d) :
    Inv (saveCart st (cartOrNew st u now).2 d) := by
  unfold cartOrNew at hid ⊢
  cases h : findCart st u with
  | none =>
    simp only [h] at hid ⊢
    exact hst.saveCart_new (by simpa [newCart] using hid) hd
  | some c =>
    simp only [h] at hid ⊢
    exact hst.saveCart_old (findCart_mem h).1 hid hd

/-- The document `cartOrNew` yields is consistent. -/
theorem cartOrNew_ok {st : Store} (hst : Inv st) (u : String) (now : Nat) :
    CartOk (cartOrNew st u now).1 := by
  unfold cartOrNew
  cases h : findCart st u with
  | none => exact ⟨by simp [newCart], by simp [newCart]⟩
  | some c => exact hst.cartOk c (findCart_mem h).1

/-- Overwriting a loaded wishlist by one with the same `_id` keeps the invariant. -/
theorem Inv.saveWishlist_old {st : Store} (hst : Inv st) {w d : Wishlist}
    (hw : w ∈ st.wishlists) (hid : d.id = w.id) : Inv (saveWishlist st false d) := by
  have hmap : (replaceFirst (fun x => x.id == d.id) d st.wishlists).map (fun w => w.id)
      = st.wishlists.map (fun w => w.id) :=
    map_replaceFirst _ _ _ _ (fun x _ hx => by simpa using hx)
  refine ⟨hst.cartIds, hst.cartFresh, ?_, ?_, hst.savedIds, hst.savedFresh, hst.cartOk,
    hst.savedOk⟩
  · simpa [saveWishlist, hmap] using hst.wishIds
  · intro x hx
    rcases mem_replaceFirst _ _ _ _ (by simpa [saveWishlist] using hx) with rfl | hx
    · simpa [saveWishlist, hid] using hst.wishFresh w hw
    · simpa [saveWishlist] using hst.wishFresh x hx

/-- Inserting a wishlist whose `_id` is the counter keeps the invariant. -/
theorem Inv.saveWishlist_new {st : Store} (hst : Inv st) {d : Wishlist}
    (hid : d.id = st.nextId) : Inv (saveWishlist st true d) := by
  refine ⟨hst.cartIds, ?_, ?_, ?_, hst.savedIds, ?_, hst.cartOk, hst.savedOk⟩
  · intro c hc
    exact Nat.lt_succ_of_lt (hst.cartFresh c (by simpa [saveWishlist] using hc))
  · simp only [saveWishlist, if_true, List.map_append, List.map_cons, List.map_nil, hid]
    exact nodup_append_fresh _ _ hst.wishIds (by
      intro i hi
      obtain ⟨w, hw, rfl⟩ := List.mem_map.1 hi
      exact hst.wishFresh w hw)
  · intro x hx
    simp only [saveWishlist, if_true, List.mem_append, List.mem_singleton] at hx ⊢
    rcases hx with hx | rfl
    · exact Nat.lt_succ_of_lt (hst.wishFresh x hx)
    · simp [hid]
  · intro s hs
    exact Nat.lt_succ_of_lt (hst.savedFresh s (by simpa [saveWishlist] using hs))

/-! ## Recomputed carts are consistent -/

theorem map_updateAt {α β : Type} (f : α → α) (g : α → β) (h : ∀ x, g (f x) = g x) (i : Nat)
    (l : List α) : (updateAt f i l).map g = l.map g := by
  induction l generalizing i with
  | nil => cases i <;> rfl
  | cons a as ih =>
    cases i with
    | zero => simp [updateAt, h]
    | succ j => simp [updateAt, ih]

/-- After `recompute` the two amounts of the cart agree with its items and discount. -/
theorem recompute_ok (cart : Cart) (items : List CartItem) (now : Nat) :
    CartOk (recompute cart items now) :=
  ⟨rfl, sumTotalPrice_eq_sum items⟩

/-! ## Every handler keeps the invariant -/

theorem Inv.getCart {st : Store} (hst : Inv st) (u : String) (now : Nat) :
    Inv (getCart st u now).1 := by
  unfold CartServer.getCart
  cases h : findCart st u with
  | some c => exact hst
  | none =>
    exact hst.saveCart_new rfl ⟨by simp [newCart], by simp [newCart]⟩

theorem Inv.addItem {st : Store} (hst : Inv st) (u : String) (now : Nat)
    (productId sku name : String) (quantity : Int) (unitPrice : ℚ) :
    Inv (addItem st u now productId sku name quantity unitPrice).1 :=
  hst.saveCart_cartOrNew u now rfl
    (recompute_ok _ _ _)

theorem Inv.updateQuantity {st : Store} (hst : Inv st) (u : String) (now : Nat)
    (productId : String) (quantity : Int) :
    Inv (updateQuantity st u now productId quantity).1 := by
  unfold CartServer.updateQuantity
  cases h : findCart st u with
  | none => exact hst
  | some c =>
    dsimp only
    cases hi : findIndex (fun item => item.productId == productId) c.items with
    | none => exact hst
    | some i =>
      exact hst.saveCart_old (findCart_mem h).1 rfl
        (recompute_ok _ _ _)

theorem Inv.removeItem {st : Store} (hst : Inv st) (u : String) (now : Nat)
    (productId : String) : Inv (removeItem st u now productId).1 := by
  unfold CartServer.removeItem
  cases h : findCart st u with
  | none => exact hst
  | some c =>
    exact hst.saveCart_old (findCart_mem h).1 rfl
      (recompute_ok _ _ _)

theorem Inv.applyDiscount [JsString] {st : Store} (hst : Inv st) (u : String) (now : Nat)
    (code : String) : Inv (applyDiscount st u now code).1 := by
  unfold CartServer.applyDiscount
  cases h : findCart st u with
  | none => exact hst
  | some c =>
    dsimp only
    cases hr : discountCodes (toUpperCase code) with
    | none => exact hst
    | some rate =>
      dsimp only
      split
      · exact hst
      · have hc := hst.cartOk c (findCart_mem h).1
        exact hst.saveCart_old (findCart_mem h).1 rfl ⟨rfl, hc.total⟩

theorem Inv.removeDiscount {st : Store} (hst : Inv st) (u : String) (now : Nat) :
    Inv (removeDiscount st u now).1 := by
  unfold CartServer.removeDiscount
  cases h : findCart st u with
  | none => exact hst
  | some c =>
    have hc := hst.cartOk c (findCart_mem h).1
    exact hst.saveCart_old (findCart_mem h).1 rfl ⟨by simp, hc.total⟩

theorem Inv.validate {st : Store} (hst : Inv st) (u : String) : Inv (validate st u).1 := by
  unfold CartServer.validate
  cases h : findCart st u with
  | none => exact hst
  | some c => dsimp only; split <;> exact hst

theorem Inv.count {st : Store} (hst : Inv st) (u : String) : Inv (count st u).1 := by
  unfold CartServer.count
  cases h : findCart st u <;> exact hst

theorem Inv.save {st : Store} (hst : Inv st) (u : String) (now : Nat) (name : Option String) :
    Inv (save st u now name).1 := by
  unfold CartServer.save
  cases h : findCart st u with
  | none => exact hst
  | some c =>
    dsimp only
    split
    · exact hst
    · have hc := hst.cartOk c (findCart_mem h).1
      refine ⟨hst.cartIds, fun x hx => Nat.lt_succ_of_lt (hst.cartFresh x hx), hst.wishIds,
        fun x hx => Nat.lt_succ_of_lt (hst.wishFresh x hx), ?_, ?_, hst.cartOk, ?_⟩
      · simp only [List.map_append, List.map_cons, List.map_nil]
        exact nodup_append_fresh _ _ hst.savedIds (by
          intro i hi
          obtain ⟨x, hx, rfl⟩ := List.mem_map.1 hi
          exact hst.savedFresh x hx)
      · intro x hx
        simp only [List.mem_append, List.mem_singleton] at hx
        rcases hx with hx | rfl
        · exact Nat.lt_succ_of_lt (hst.savedFresh x hx)
        · exact Nat.lt_succ_self _
      · intro x hx
        simp only [List.mem_append, List.mem_singleton] at hx
        rcases hx with hx | rfl
        · exact hst.savedOk x hx
        · exact ⟨hc.total⟩

theorem Inv.restore {st : Store} (hst : Inv st) (u : String) (now : Nat) (savedCartId : Nat) :
    Inv (restore st u now savedCartId).1 := by
  unfold CartServer.restore
  cases h : findSavedById st savedCartId with
  | none => exact hst
  | some s =>
    dsimp only
    split
    · exact hst
    · have hs := hst.savedOk s (List.mem_of_find?_eq_some h)
      exact hst.saveCart_cartOrNew u now rfl ⟨rfl, hs.total⟩

theorem Inv.deleteSaved {st : Store} (hst : Inv st) (u : String) (savedCartId : Nat) :
    Inv (deleteSaved st u savedCartId).1 := by
  unfold CartServer.deleteSaved
  cases h : findSavedById st savedCartId with
  | none => exact hst
  | some s =>
    dsimp only
    split
    · exact hst
    · exact ⟨hst.cartIds, hst.cartFresh, hst.wishIds, hst.wishFresh,
        (List.Sublist.map _ (deleteFirst_sublist _ _)).nodup hst.savedIds,
        fun x hx => hst.savedFresh x (mem_deleteFirst _ _ _ hx), hst.cartOk,
        fun x hx => hst.savedOk x (mem_deleteFirst _ _ _ hx)⟩

theorem Inv.merge {st : Store} (hst : Inv st) (u : String) (now : Nat)
    (guestCart : List CartItem) : Inv (merge st u now guestCart).1 :=
  hst.saveCart_cartOrNew u now rfl
    (recompute_ok _ _ _)

theorem Inv.clear {st : Store} (hst : Inv st) (u : String) (now : Nat) :
    Inv (clear st u now).1 := by
  unfold CartServer.clear
  cases h : findCart st u with
  | none => exact hst
  | some c =>
    exact hst.saveCart_old (findCart_mem h).1 rfl ⟨by simp, by simp⟩

theorem Inv.wishlistGet {st : Store} (hst : Inv st) (u : String) (now : Nat) :
    Inv (wishlistGet st u now).1 := by
  unfold CartServer.wishlistGet
  cases h : findWishlist st u with
  | some w => exact hst
  | none => exact hst.saveWishlist_new rfl

theorem Inv.wishlistAddItem {st : Store} (hst : Inv st) (u : String) (now : Nat)
    (productId sku name : String) (unitPrice : ℚ) :
    Inv (wishlistAddItem st u now productId sku name unitPrice).1 := by
  unfold CartServer.wishlistAddItem
  cases h : findWishlist st u with
  | some w =>
    dsimp only
    cases hi : w.items.find? (fun item => item.productId == productId) with
    | some _ => exact hst
    | none => exact hst.saveWishlist_old (findWishlist_mem h).1 rfl
  | none =>
    dsimp only
    cases hi : (newWishlist st u now).items.find? (fun item => item.productId == productId) with
    | some _ => exact hst
    | none => exact hst.saveWishlist_new rfl

theorem Inv.wishlistRemoveItem {st : Store} (hst : Inv st) (u : String) (now : Nat)
    (productId : String) : Inv (wishlistRemoveItem st u now productId).1 := by
  unfold CartServer.wishlistRemoveItem
  cases h : findWishlist st u with
  | none => exact hst
  | some w => exact hst.saveWishlist_old (findWishlist_mem h).1 rfl

theorem Inv.wishlistClear {st : Store} (hst : Inv st) (u : String) (now : Nat) :
    Inv (wishlistClear st u now).1 := by
  unfold CartServer.wishlistClear
  cases h : findWishlist st u with
  | none => exact hst
  | some w => exact hst.saveWishlist_old (findWishlist_mem h).1 rfl

theorem saveCart_wishlists (st : Store) (isNew : Bool) (cart : Cart) :
    (saveCart st isNew cart).wishlists = st.wishlists := by
  unfold saveCart; split <;> rfl

theorem saveCart_savedCarts (st : Store) (isNew : Bool) (cart : Cart) :
    (saveCart st isNew cart).savedCarts = st.savedCarts := by
  unfold saveCart; split <;> rfl

theorem saveWishlist_carts (st : Store) (isNew : Bool) (w : Wishlist) :
    (saveWishlist st isNew w).carts = st.carts := by
  unfold saveWishlist; split <;> rfl

theorem saveWishlist_savedCarts (st : Store) (isNew : Bool) (w : Wishlist) :
    (saveWishlist st isNew w).savedCarts = st.savedCarts := by
  unfold saveWishlist; split <;> rfl

theorem Inv.moveToCart {st : Store} (hst : Inv st) (u : String) (now : Nat)
    (productId : String) (quantity : Int) : Inv (moveToCart st u now productId quantity).1 := by
  unfold CartServer.moveToCart CartServer.moveToCartWith
  cases h : findWishlist st u with
  | none => exact hst
  | some w =>
    dsimp only
    cases hi : w.items.find? (fun item => item.productId == productId) with
    | none => exact hst
    | some item =>
      have h1 : Inv (saveCart st (cartOrNew st u now).2
          (recompute (cartOrNew st u now).1
            (moveToCartLines (cartOrNew st u now).1.items item productId quantity) now)) :=
        hst.saveCart_cartOrNew u now rfl (recompute_ok _ _ _)
      exact h1.saveWishlist_old (w := w)
        (by rw [saveCart_wishlists]; exact (findWishlist_mem h).1) rfl

/-- Every request keeps the invariant. -/
theorem Inv.handle [JsString] {st : Store} (hst : Inv st) (u : String) (now : Nat) (req : Request) :
    Inv (handle st u now req) := by
  cases req with
  | getCart => exact hst.getCart u now
  | count => exact hst.count u
  | addItem productId sku name quantity unitPrice =>
    exact hst.addItem u now productId sku name quantity unitPrice
  | updateQuantity productId quantity => exact hst.updateQuantity u now productId quantity
  | removeItem productId => exact hst.removeItem u now productId
  | applyDiscount code => exact hst.applyDiscount u now code
  | removeDiscount => exact hst.removeDiscount u now
  | validate => exact hst.validate u
  | save name => exact hst.save u now name
  | listSaved => exact hst
  | restore savedCartId => exact hst.restore u now savedCartId
  | deleteSaved savedCartId => exact hst.deleteSaved u savedCartId
  | merge guestCart => exact hst.merge u now guestCart
  | clear => exact hst.clear u now
  | wishlistGet => exact hst.wishlistGet u now
  | wishlistAddItem productId sku name unitPrice =>
    exact hst.wishlistAddItem u now productId sku name unitPrice
  | wishlistRemoveItem productId => exact hst.wishlistRemoveItem u now productId
  | moveToCart productId quantity => exact hst.moveToCart u now productId quantity
  | wishlistClear => exact hst.wishlistClear u now

/-- Every reachable store satisfies the invariant. -/
theorem Reachable.inv [JsString] {st : Store} (h : Reachable st) : Inv st := by
  induction h with
  | empty => exact Inv.empty
  | step u now req _ ih => exact ih.handle u now req

/-! ## The user's cart after a save -/

theorem findCart_saveCart_old {st : Store} (hst : Inv st) {u : String} {c d : Cart}
    (hc : findCart st u = some c) (hid : d.id = c.id) (hu : d.userId = castObjectId u) :
    findCart (saveCart st false d) u = some d := by
  have := find?_replaceFirst_owner (fun c : Cart => c.id) (fun c : Cart => c.userId)
    st.carts (castObjectId u) c d hst.cartIds hc hid hu
  simpa [findCart, saveCart] using this

theorem findCart_saveCart_new {st : Store} {u : String} {d : Cart}
    (hc : findCart st u = none) (hu : d.userId = castObjectId u) :
    findCart (saveCart st true d) u = some d := by
  have := find?_append_owner (fun c : Cart => c.userId) st.carts (castObjectId u) d hc hu
  simpa [findCart, saveCart] using this

theorem cartOrNew_userId {st : Store} (u : String) (now : Nat) :
    (cartOrNew st u now).1.userId = castObjectId u := by
  unfold cartOrNew
  cases h : findCart st u with
  | none => rfl
  | some c => exact (findCart_mem h).2

theorem findCart_saveCart_cartOrNew {st : Store} (hst : Inv st) (u : String) (now : Nat)
    {d : Cart} (hid : d.id = (cartOrNew st u now).1.id) (hu : d.userId = castObjectId u) :
    findCart (saveCart st (cartOrNew st u now).2 d) u = some d := by
  unfold cartOrNew at hid ⊢
  cases h : findCart st u with
  | none => simp only [h]; exact findCart_saveCart_new h hu
  | some c =>
    simp only [h] at hid ⊢
    exact findCart_saveCart_old hst h hid hu

theorem cartOrNew_of_some {st : Store} {u : String} {c : Cart} (now : Nat)
    (h : findCart st u = some c) : cartOrNew st u now = (c, false) := by
  simp [cartOrNew, h]

theorem cartOrNew_of_none {st : Store} {u : String} (now : Nat)
    (h : findCart st u = none) : cartOrNew st u now = (newCart st u now, true) := by
  simp [cartOrNew, h]

/-! ## The item mutations on a cart that has, or has not, a line for the product -/

theorem addItemLines_existing (pre post : List CartItem) (x : CartItem)
    (productId sku name : String) (quantity : Int) (unitPrice : ℚ)
    (hx : x.productId = productId) (hpre : ∀ y ∈ pre, y.productId ≠ productId) :
    addItemLines (pre ++ x :: post) productId sku name quantity unitPrice
      = pre ++ { x with
          quantity := x.quantity + quantity
          totalPrice := ((x.quantity + quantity : Int) : ℚ) * unitPrice } :: post := by
  unfold addItemLines
  rw [findIndex_append_cons _ pre post x (by simpa using hx) (by simpa using hpre)]
  exact updateAt_append_cons _ pre post x

theorem discountCodes_ne_zero (key : String) (rate : ℚ) (h : discountCodes key = some rate) :
    rate ≠ 0 := by
  unfold discountCodes at h
  split_ifs at h <;> simp at h <;> subst h <;> norm_num

theorem discountCodes_keys (key : String) :
    (discountCodes key).isSome = true ↔
      key = "SAVE10" ∨ key = "SAVE20" ∨ key = "WELCOME" ∨ key = "FIRSTORDER" := by
  unfold discountCodes
  split_ifs with h1 h2 h3 h4 <;> simp [*]

/-! ## Move to cart -/

theorem moveToCartLinesWith_existing (mul : ℚ → ℚ → ℚ) (pre post : List CartItem)
    (x : CartItem) (item : WishlistItem) (productId : String) (quantity : Int)
    (hx : x.productId = productId) (hpre : ∀ y ∈ pre, y.productId ≠ productId) :
    moveToCartLinesWith mul (pre ++ x :: post) item productId quantity
      = pre ++ { x with
          quantity := x.quantity + quantity
          totalPrice := mul ((x.quantity + quantity : Int) : ℚ) item.unitPrice } :: post := by
  unfold moveToCartLinesWith
  rw [findIndex_append_cons _ pre post x (by simpa using hx) (by simpa using hpre)]
  exact updateAt_append_cons _ pre post x

theorem moveToCartLines_existing (pre post : List CartItem) (x : CartItem) (item : WishlistItem)
    (productId : String) (quantity : Int) (hx : x.productId = productId)
    (hpre : ∀ y ∈ pre, y.productId ≠ productId) :
    moveToCartLines (pre ++ x :: post) item productId quantity
      = pre ++ { x with
          quantity := x.quantity + quantity
          totalPrice := ((x.quantity + quantity : Int) : ℚ) * item.unitPrice } :: post :=
  moveToCartLinesWith_existing _ pre post x item productId quantity hx hpre

theorem moveToCartLines_absent (items : List CartItem) (item : WishlistItem)
    (productId : String) (quantity : Int) (h : ∀ y ∈ items, y.productId ≠ productId) :
    moveToCartLines items item productId quantity
      = items ++ [{ productId := item.productId, sku := item.sku, name := item.name,
                    quantity := quantity, unitPrice := item.unitPrice,
                    totalPrice := (quantity : ℚ) * item.unitPrice }] := by
  unfold moveToCartLines moveToCartLinesWith
  rw [(findIndex_eq_none _ _).2 (by simpa using h)]

theorem findWishlist_saveWishlist_old {st : Store} (hst : Inv st) {u : String}
    {w d : Wishlist} (hw : findWishlist st u = some w) (hid : d.id = w.id)
    (hu : d.userId = castObjectId u) : findWishlist (saveWishlist st false d) u = some d := by
  have := find?_replaceFirst_owner (fun w : Wishlist => w.id) (fun w : Wishlist => w.userId)
    st.wishlists (castObjectId u) w d hst.wishIds hw hid hu
  simpa [findWishlist, saveWishlist] using this

theorem findCart_saveWishlist (st : Store) (isNew : Bool) (w : Wishlist) (u : String) :
    findCart (saveWishlist st isNew w) u = findCart st u := by
  simp [findCart, saveWishlist_carts]

theorem findWishlist_saveCart (st : Store) (isNew : Bool) (c : Cart) (u : String) :
    findWishlist (saveCart st isNew c) u = findWishlist st u := by
  simp [findWishlist, saveCart_wishlists]

/-! ## Merge against its specification -/

theorem specAddToLine_append_cons (pre post : List CartItem) (x : CartItem)
    (productId : String) (q : Int) (hx : x.productId = productId)
    (hpre : ∀ y ∈ pre, y.productId ≠ productId) :
    specAddToLine productId q (pre ++ x :: post)
      = pre ++ { x with
          quantity := x.quantity + q
          totalPrice := ((x.quantity + q : Int) : ℚ) * x.unitPrice } :: post := by
  induction pre with
  | nil => simp [specAddToLine, hx]
  | cons a as ih =>
    have ha : a.productId ≠ productId := hpre a (List.mem_cons_self _ _)
    simp [specAddToLine, ha, ih (fun y hy => hpre y (List.mem_cons_of_mem _ hy))]

theorem mergeGuestItem_eq_specMergeRule (items : List CartItem) (guestItem : CartItem) :
    mergeGuestItem items guestItem = specMergeRule items guestItem := by
  unfold mergeGuestItem specMergeRule specHasLine
  cases hf : findIndex (fun item => item.productId == guestItem.productId) items with
  | none =>
    have hnone := (findIndex_eq_none _ _).1 hf
    have : items.any (fun item => item.productId == guestItem.productId) = false := by
      rw [List.any_eq_false]
      intro y hy
      simpa using hnone y hy
    simp [this]
  | some i =>
    obtain ⟨pre, x, post, rfl, hx, hpre, rfl⟩ := findIndex_eq_some _ _ _ hf
    have hany : (pre ++ x :: post).any (fun item => item.productId == guestItem.productId)
        = true := by
      rw [List.any_eq_true]
      exact ⟨x, by simp, hx⟩
    simp only [hany, if_true]
    rw [updateAt_append_cons,
      specAddToLine_append_cons pre post x _ _ (by simpa using hx) (by simpa using hpre)]

theorem foldl_mergeGuestItem_eq_specMerge (guestCart items : List CartItem) :
    guestCart.foldl mergeGuestItem items = specMerge items guestCart := by
  induction guestCart generalizing items with
  | nil => rfl
  | cons g gs ih => simp only [List.foldl, specMerge, mergeGuestItem_eq_specMergeRule, ih]

/-! ## Which carts a request writes -/

/-- A request leaves the cart collection as it was, or saves one cart document: the user's
own, loaded or new. -/
theorem handle_carts [JsString] (st : Store) (u : String) (now : Nat) (req : Request) :
    (handle st u now req).carts = st.carts ∨
    ∃ d : Cart, d.id = (cartOrNew st u now).1.id ∧ d.userId = castObjectId u ∧
      (handle st u now req).carts = (saveCart st (cartOrNew st u now).2 d).carts := by
  have hu : (cartOrNew st u now).1.userId = castObjectId u := cartOrNew_userId u now
  cases hc : findCart st u with
  | none =>
    have hcn := cartOrNew_of_none now hc
    cases req with
    | getCart =>
      refine Or.inr ⟨newCart st u now, by rw [hcn], rfl, ?_⟩
      simp [handle, getCart, hc, hcn]
    | addItem productId sku name quantity unitPrice =>
      refine Or.inr ⟨_, ?_, ?_, rfl⟩
      exacts [rfl, hu]
    | merge guestCart =>
      refine Or.inr ⟨_, ?_, ?_, rfl⟩
      exacts [rfl, hu]
    | restore savedCartId =>
      simp only [handle, restore]
      cases hs : findSavedById st savedCartId with
      | none => exact Or.inl rfl
      | some s =>
        dsimp only
        split
        · exact Or.inl rfl
        · refine Or.inr ⟨_, ?_, ?_, rfl⟩
          exacts [rfl, hu]
    | moveToCart productId quantity =>
      simp only [handle, moveToCart, moveToCartWith]
      cases hw : findWishlist st u with
      | none => exact Or.inl rfl
      | some w =>
        dsimp only
        cases hi : w.items.find? (fun item => item.productId == productId) with
        | none => exact Or.inl rfl
        | some item =>
          rw [saveWishlist_carts]
          refine Or.inr ⟨_, ?_, ?_, rfl⟩
          exacts [rfl, hu]
    | wishlistGet =>
      left; simp only [handle, wishlistGet]; split <;> simp [saveWishlist_carts]
    | wishlistAddItem productId sku name unitPrice =>
      left; simp only [handle, wishlistAddItem]; (repeat' split) <;> simp [saveWishlist_carts]
    | wishlistRemoveItem productId =>
      left; simp only [handle, wishlistRemoveItem]; split <;> simp [saveWishlist_carts]
    | wishlistClear =>
      left; simp only [handle, wishlistClear]; split <;> simp [saveWishlist_carts]
    | save name => left; simp [handle, save, hc]
    | deleteSaved savedCartId =>
      left; simp only [handle, deleteSaved]; (repeat' split) <;> rfl
    | count => left; simp [handle, count, hc]
    | validate => left; simp [handle, validate, hc]
    | listSaved => left; rfl
    | updateQuantity productId quantity => left; simp [handle, updateQuantity, hc]
    | removeItem productId => left; simp [handle, removeItem, hc]
    | applyDiscount code => left; simp [handle, applyDiscount, hc]
    | removeDiscount => left; simp [handle, removeDiscount, hc]
    | clear => left; simp [handle, clear, hc]
  | some c =>
    have hcs := cartOrNew_of_some now hc
    have hcu := (findCart_mem hc).2
    rw [hcs]
    cases req with
    | getCart => left; simp [handle, getCart, hc]
    | addItem productId sku name quantity unitPrice =>
      simp only [handle, addItem, hcs]
      refine Or.inr ⟨_, ?_, ?_, rfl⟩
      exacts [rfl, hcu]
    | merge guestCart =>
      simp only [handle, merge, hcs]
      refine Or.inr ⟨_, ?_, ?_, rfl⟩
      exacts [rfl, hcu]
    | restore savedCartId =>
      simp only [handle, restore, hcs]
      cases hs : findSavedById st savedCartId with
      | none => exact Or.inl rfl
      | some s =>
        dsimp only
        split
        · exact Or.inl rfl
        · refine Or.inr ⟨_, ?_, ?_, rfl⟩
          exacts [rfl, hcu]
    | moveToCart productId quantity =>
      simp only [handle, moveToCart, moveToCartWith, hcs]
      cases hw : findWishlist st u with
      | none => exact Or.inl rfl
      | some w =>
        dsimp only
        cases hi : w.items.find? (fun item => item.productId == productId) with
        | none => exact Or.inl rfl
        | some item =>
          rw [saveWishlist_carts]
          refine Or.inr ⟨_, ?_, ?_, rfl⟩
          exacts [rfl, hcu]
    | wishlistGet =>
      left; simp only [handle, wishlistGet]; split <;> simp [saveWishlist_carts]
    | wishlistAddItem productId sku name unitPrice =>
      left; simp only [handle, wishlistAddItem]; (repeat' split) <;> simp [saveWishlist_carts]
    | wishlistRemoveItem productId =>
      left; simp only [handle, wishlistRemoveItem]; split <;> simp [saveWishlist_carts]
    | wishlistClear =>
      left; simp only [handle, wishlistClear]; split <;> simp [saveWishlist_carts]
    | save name => left; simp only [handle, save, hc]; split <;> rfl
    | deleteSaved savedCartId =>
      left; simp only [handle, deleteSaved]; (repeat' split) <;> rfl
    | count => left; simp [handle, count, hc]
    | validate => left; simp only [handle, validate, hc]; split <;> rfl
    | listSaved => left; rfl
    | updateQuantity productId quantity =>
      simp only [handle, updateQuantity, hc]
      cases hi : findIndex (fun item => item.productId == productId) c.items with
      | none => exact Or.inl rfl
      | some i =>
        refine Or.inr ⟨_, ?_, ?_, rfl⟩
        exacts [rfl, hcu]
    | removeItem productId =>
      simp only [handle, removeItem, hc]
      refine Or.inr ⟨_, ?_, ?_, rfl⟩
      exacts [rfl, hcu]
    | applyDiscount code =>
      simp only [handle, applyDiscount, hc]
      cases hr : discountCodes (toUpperCase code) with
      | none => exact Or.inl rfl
      | some rate =>
        dsimp only
        split
        · exact Or.inl rfl
        · refine Or.inr ⟨_, ?_, ?_, rfl⟩
          exacts [rfl, hcu]
    | removeDiscount =>
      simp only [handle, removeDiscount, hc]
      refine Or.inr ⟨_, ?_, ?_, rfl⟩
      exacts [rfl, hcu]
    | clear =>
      simp only [handle, clear, hc]
      refine Or.inr ⟨_, ?_, ?_, rfl⟩
      exacts [rfl, hcu]

/-! ## One cart per user -/

theorem CartOwners.owners_saveCart_cartOrNew {st : Store} (hst : Inv st) (ho : CartOwners st)
    (u : String) (now : Nat) {d : Cart} (hid : d.id = (cartOrNew st u now).1.id)
    (hu : d.userId = castObjectId u) : CartOwners (saveCart st (cartOrNew st u now).2 d) := by
  unfold CartOwners at ho ⊢
  cases hc : findCart st u with
  | none =>
    rw [cartOrNew_of_none now hc]
    simp only [saveCart, if_true, List.map_append, List.map_cons, List.map_nil]
    rw [List.nodup_append]
    refine ⟨ho, List.nodup_singleton _, ?_⟩
    intro a ha hb
    simp only [List.mem_singleton] at hb
    obtain ⟨c, hcm, rfl⟩ := List.mem_map.1 ha
    have := List.find?_eq_none.1 hc c hcm
    simp [hb, hu] at this
  | some c =>
    rw [cartOrNew_of_some now hc] at hid ⊢
    have hcm := findCart_mem hc
    have hmap : (replaceFirst (fun x => x.id == d.id) d st.carts).map (fun c => c.userId)
        = st.carts.map (fun c => c.userId) := by
      apply map_replaceFirst
      intro x hx hxid
      have hxc : x = c :=
        List.inj_on_of_nodup_map hst.cartIds hx hcm.1 (by simpa [hid] using hxid)
      rw [hxc, hcm.2, hu]
    simpa [saveCart, hmap] using ho

theorem CartOwners.owners_handle [JsString] {st : Store} (hst : Inv st) (ho : CartOwners st) (u : String)
    (now : Nat) (req : Request) : CartOwners (handle st u now req) := by
  rcases handle_carts st u now req with h | ⟨d, hid, hu, h⟩
  · unfold CartOwners at ho ⊢
    rw [h]; exact ho
  · have := CartOwners.owners_saveCart_cartOrNew hst ho u now hid hu
    unfold CartOwners at this ⊢
    rw [h]; exact this

theorem Reachable.cartOwners [JsString] {st : Store} (h : Reachable st) : CartOwners st := by
  induction h with
  | empty => simp [CartOwners, Store.empty]
  | step u now req hr ih => exact ih.owners_handle hr.inv u now req

/-! ## Quantities of the lines -/

theorem mem_updateAt {α : Type} (f : α → α) (i : Nat) (l : List α) (y : α)
    (h : y ∈ updateAt f i l) : y ∈ l ∨ ∃ x ∈ l, y = f x := by
  induction l generalizing i with
  | nil => cases i <;> simp [updateAt] at h
  | cons a as ih =>
    cases i with
    | zero =>
      simp only [updateAt, List.mem_cons] at h
      rcases h with h | h
      · exact Or.inr ⟨a, List.mem_cons_self _ _, h⟩
      · exact Or.inl (List.mem_cons_of_mem _ h)
    | succ j =>
      simp only [updateAt, List.mem_cons] at h
      rcases h with h | h
      · exact Or.inl (h ▸ List.mem_cons_self _ _)
      · rcases ih j h with h | ⟨x, hx, hy⟩
        · exact Or.inl (List.mem_cons_of_mem _ h)
        · exact Or.inr ⟨x, List.mem_cons_of_mem _ hx, hy⟩

theorem mem_saveCart {st : Store} {isNew : Bool} {d x : Cart}
    (h : x ∈ (saveCart st isNew d).carts) : x = d ∨ x ∈ st.carts := by
  unfold saveCart at h
  split at h
  · simp only [List.mem_append, List.mem_singleton] at h
    exact h.symm
  · exact mem_replaceFirst _ _ _ _ h

theorem mem_saveWishlist {st : Store} {isNew : Bool} {d x : Wishlist}
    (h : x ∈ (saveWishlist st isNew d).wishlists) : x = d ∨ x ∈ st.wishlists := by
  unfold saveWishlist at h
  split at h
  · simp only [List.mem_append, List.mem_singleton] at h
    exact h.symm
  · exact mem_replaceFirst _ _ _ _ h

theorem addItemLines_quantities (items : List CartItem) (productId sku name : String)
    (quantity : Int) (unitPrice : ℚ) (h : ∀ item ∈ items, 1 ≤ item.quantity)
    (hq : 1 ≤ quantity) :
    ∀ item ∈ addItemLines items productId sku name quantity unitPrice, 1 ≤ item.quantity := by
  intro y hy
  unfold addItemLines at hy
  cases hf : findIndex (fun item => item.productId == productId) items with
  | some i =>
    rw [hf] at hy
    rcases mem_updateAt _ _ _ _ hy with hy | ⟨x, hx, rfl⟩
    · exact h y hy
    · have := h x hx
      show 1 ≤ x.quantity + quantity
      omega
  | none =>
    rw [hf] at hy
    simp only [List.mem_append, List.mem_singleton] at hy
    rcases hy with hy | rfl
    · exact h y hy
    · exact hq

theorem moveToCartLines_quantities (items : List CartItem) (item : WishlistItem)
    (productId : String) (quantity : Int) (h : ∀ line ∈ items, 1 ≤ line.quantity)
    (hq : 1 ≤ quantity) :
    ∀ line ∈ moveToCartLines items item productId quantity, 1 ≤ line.quantity := by
  intro y hy
  unfold moveToCartLines moveToCartLinesWith at hy
  cases hf : findIndex (fun cartItem => cartItem.productId == productId) items with
  | some i =>
    rw [hf] at hy
    rcases mem_updateAt _ _ _ _ hy with hy | ⟨x, hx, rfl⟩
    · exact h y hy
    · have := h x hx
      show 1 ≤ x.quantity + quantity
      omega
  | none =>
    rw [hf] at hy
    simp only [List.mem_append, List.mem_singleton] at hy
    rcases hy with hy | rfl
    · exact h y hy
    · exact hq

theorem mergeGuestItem_quantities (items : List CartItem) (guestItem : CartItem)
    (h : ∀ item ∈ items, 1 ≤ item.quantity) (hq : 1 ≤ guestItem.quantity) :
    ∀ item ∈ mergeGuestItem items guestItem, 1 ≤ item.quantity := by
  intro y hy
  unfold mergeGuestItem at hy
  cases hf : findIndex (fun item => item.productId == guestItem.productId) items with
  | some i =>
    rw [hf] at hy
    rcases mem_updateAt _ _ _ _ hy with hy | ⟨x, hx, rfl⟩
    · exact h y hy
    · have := h x hx
      show 1 ≤ x.quantity + guestItem.quantity
      omega
  | none =>
    rw [hf] at hy
    simp only [List.mem_append, List.mem_singleton] at hy
    rcases hy with hy | rfl
    · exact h y hy
    · exact hq

theorem foldl_mergeGuestItem_quantities (guestCart items : List CartItem)
    (h : ∀ item ∈ items, 1 ≤ item.quantity)
    (hq : ∀ guestItem ∈ guestCart, 1 ≤ guestItem.quantity) :
    ∀ item ∈ guestCart.foldl mergeGuestItem items, 1 ≤ item.quantity := by
  induction guestCart generalizing items with
  | nil => exact h
  | cons g gs ih =>
    exact ih _ (mergeGuestItem_quantities items g h (hq g (List.mem_cons_self _ _)))
      (fun x hx => hq x (List.mem_cons_of_mem _ hx))

theorem updateQuantityLines_quantities (items : List CartItem) (itemIndex : Nat)
    (quantity : Int) (h : ∀ item ∈ items, 1 ≤ item.quantity) :
    ∀ item ∈ updateQuantityLines items itemIndex quantity, 1 ≤ item.quantity := by
  intro y hy
  unfold updateQuantityLines at hy
  split at hy
  · exact h y ((List.eraseIdx_sublist _ _).subset hy)
  · rcases mem_updateAt _ _ _ _ hy with hy | ⟨x, _, rfl⟩
    · exact h y hy
    · show 1 ≤ quantity
      omega

theorem QuantitiesOk.saveCart {st : Store} (h : QuantitiesOk st) (isNew : Bool) {d : Cart}
    (hd : ∀ item ∈ d.items, 1 ≤ item.quantity) : QuantitiesOk (saveCart st isNew d) := by
  refine ⟨?_, ?_⟩
  · intro c hc
    rcases mem_saveCart hc with rfl | hc
    · exact hd
    · exact h.1 c hc
  · rw [saveCart_savedCarts]; exact h.2

theorem QuantitiesOk.quantities_saveWishlist {st : Store} (h : QuantitiesOk st) (isNew : Bool)
    (w : Wishlist) : QuantitiesOk (saveWishlist st isNew w) := by
  refine ⟨?_, ?_⟩
  · rw [saveWishlist_carts]; exact h.1
  · rw [saveWishlist_savedCarts]; exact h.2

theorem cartOrNew_quantities {st : Store} (h : QuantitiesOk st) (u : String) (now : Nat) :
    ∀ item ∈ (cartOrNew st u now).1.items, 1 ≤ item.quantity := by
  unfold cartOrNew
  cases hc : findCart st u with
  | none => simp [newCart]
  | some c => exact h.1 c (findCart_mem hc).1

/-- A request whose incoming quantities are at least 1 keeps every quantity at least 1. -/
theorem QuantitiesOk.quantities_handle [JsString] {st : Store} (h : QuantitiesOk st) (u : String) (now : Nat)
    (req : Request) (hreq : req.quantitiesPositive) : QuantitiesOk (handle st u now req) := by
  cases req with
  | getCart =>
    simp only [CartServer.handle, CartServer.getCart]
    cases hc : findCart st u with
    | some c => exact h
    | none => exact h.saveCart true (by simp [newCart])
  | count => simp only [CartServer.handle, CartServer.count]; split <;> exact h
  | addItem productId sku name quantity unitPrice =>
    exact h.saveCart _ (addItemLines_quantities _ _ _ _ _ _ (cartOrNew_quantities h u now) hreq)
  | updateQuantity productId quantity =>
    simp only [CartServer.handle, CartServer.updateQuantity]
    cases hc : findCart st u with
    | none => exact h
    | some c =>
      dsimp only
      cases hi : findIndex (fun item => item.productId == productId) c.items with
      | none => exact h
      | some i =>
        exact h.saveCart false
          (updateQuantityLines_quantities _ _ _ (h.1 c (findCart_mem hc).1))
  | removeItem productId =>
    simp only [CartServer.handle, CartServer.removeItem]
    cases hc : findCart st u with
    | none => exact h
    | some c =>
      exact h.saveCart false
        (fun item hi => h.1 c (findCart_mem hc).1 item (List.mem_filter.1 hi).1)
  | applyDiscount code =>
    simp only [CartServer.handle, CartServer.applyDiscount]
    cases hc : findCart st u with
    | none => exact h
    | some c =>
      dsimp only
      cases hr : discountCodes (toUpperCase code) with
      | none => exact h
      | some rate =>
        dsimp only
        split
        · exact h
        · exact h.saveCart false (h.1 c (findCart_mem hc).1)
  | removeDiscount =>
    simp only [CartServer.handle, CartServer.removeDiscount]
    cases hc : findCart st u with
    | none => exact h
    | some c => exact h.saveCart false (h.1 c (findCart_mem hc).1)
  | validate => simp only [CartServer.handle, CartServer.validate]; (repeat' split) <;> exact h
  | save name =>
    simp only [CartServer.handle, CartServer.save]
    cases hc : findCart st u with
    | none => exact h
    | some c =>
      dsimp only
      split
      · exact h
      · refine ⟨h.1, ?_⟩
        intro s hs
        simp only [List.mem_append, List.mem_singleton] at hs
        rcases hs with hs | rfl
        · exact h.2 s hs
        · exact h.1 c (findCart_mem hc).1
  | listSaved => exact h
  | restore savedCartId =>
    simp only [CartServer.handle, CartServer.restore]
    cases hs : findSavedById st savedCartId with
    | none => exact h
    | some s =>
      dsimp only
      split
      · exact h
      · exact h.saveCart _ (h.2 s (List.mem_of_find?_eq_some hs))
  | deleteSaved savedCartId =>
    simp only [CartServer.handle, CartServer.deleteSaved]
    cases hs : findSavedById st savedCartId with
    | none => exact h
    | some s =>
      dsimp only
      split
      · exact h
      · exact ⟨h.1, fun x hx => h.2 x (mem_deleteFirst _ _ _ hx)⟩
  | merge guestCart =>
    exact h.saveCart _
      (foldl_mergeGuestItem_quantities _ _ (cartOrNew_quantities h u now) hreq)
  | clear =>
    simp only [CartServer.handle, CartServer.clear]
    cases hc : findCart st u with
    | none => exact h
    | some c => exact h.saveCart false (by simp)
  | wishlistGet =>
    simp only [CartServer.handle, CartServer.wishlistGet]
    split
    · exact h
    · exact h.quantities_saveWishlist _ _
  | wishlistAddItem productId sku name unitPrice =>
    simp only [CartServer.handle, CartServer.wishlistAddItem]
    (repeat' split) <;> exact h
  | wishlistRemoveItem productId =>
    simp only [CartServer.handle, CartServer.wishlistRemoveItem]
    split
    · exact h
    · exact h.quantities_saveWishlist _ _
  | moveToCart productId quantity =>
    simp only [CartServer.handle, CartServer.moveToCart, CartServer.moveToCartWith]
    cases hw : findWishlist st u with
    | none => exact h
    | some w =>
      dsimp only
      cases hi : w.items.find? (fun item => item.productId == productId) with
      | none => exact h
      | some item =>
        exact (h.saveCart _ (moveToCartLines_quantities _ _ _ _
          (cartOrNew_quantities h u now) hreq)).quantities_saveWishlist _ _
  | wishlistClear =>
    simp only [CartServer.handle, CartServer.wishlistClear]
    split
    · exact h
    · exact h.quantities_saveWishlist _ _

theorem ReachablePositive.quantitiesOk [JsString] {st : Store} (h : ReachablePositive st) :
    QuantitiesOk st := by
  induction h with
  | empty => exact ⟨by simp [Store.empty], by simp [Store.empty]⟩
  | step u now req hreq _ ih => exact ih.quantities_handle u now req hreq

/-! ## Counting -/

theorem foldl_quantity_eq_sum (items : List CartItem) :
    items.foldl (fun sum item => sum + item.quantity) (0 : Int)
      = (items.map (fun item => item.quantity)).sum := by
  have aux : ∀ (l : List CartItem) (a : Int),
      l.foldl (fun sum item => sum + item.quantity) a
        = a + (l.map (fun item => item.quantity)).sum := by
    intro l
    induction l with
    | nil => intro a; simp
    | cons x xs ih => intro a; simp [List.foldl, ih, add_assoc]
  simpa using aux items 0

theorem removeDiscount_of_some {st : Store} {u : String} {c : Cart}
    (hc : findCart st u = some c) (now : Nat) :
    removeDiscount st u now
      = (saveCart st false { c with discount := 0, discountCode := none,
                                    finalAmount := c.totalAmount, updatedAt := now },
          .success (some "Discount removed")
            { c with discount := 0, discountCode := none, finalAmount := c.totalAmount,
                     updatedAt := now }) := by
  simp [removeDiscount, hc]

/-! ## A wishlist created by a request -/

theorem findWishlist_saveWishlist_new {st : Store} {u : String} {d : Wishlist}
    (hw : findWishlist st u = none) (hu : d.userId = castObjectId u) :
    findWishlist (saveWishlist st true d) u = some d := by
  have := find?_append_owner (fun w : Wishlist => w.userId) st.wishlists (castObjectId u) d hw hu
  simpa [findWishlist, saveWishlist] using this

/-! ## Line mutations and the discount -/

theorem lineMutation_discount [JsString] {st : Store} (hst : Inv st) {u : String} {c : Cart}
    (hc : findCart st u = some c) (now : Nat) (m : LineMutation) :
    ∃ c', findCart (handle st u now m.toRequest) u = some c' ∧
      c'.discount = c.discount ∧ c'.discountCode = c.discountCode := by
  have hu := (findCart_mem hc).2
  cases m with
  | addItem productId sku name quantity unitPrice =>
    simp only [LineMutation.toRequest, handle, addItem, cartOrNew_of_some now hc]
    exact ⟨_, findCart_saveCart_old hst hc rfl hu, rfl, rfl⟩
  | updateQuantity productId quantity =>
    simp only [LineMutation.toRequest, handle, updateQuantity, hc]
    cases hi : findIndex (fun item => item.productId == productId) c.items with
    | none => exact ⟨c, hc, rfl, rfl⟩
    | some i => exact ⟨_, findCart_saveCart_old hst hc rfl hu, rfl, rfl⟩
  | removeItem productId =>
    simp only [LineMutation.toRequest, handle, removeItem, hc]
    exact ⟨_, findCart_saveCart_old hst hc rfl hu, rfl, rfl⟩
  | merge guestCart =>
    simp only [LineMutation.toRequest, handle, merge, cartOrNew_of_some now hc]
    exact ⟨_, findCart_saveCart_old hst hc rfl hu, rfl, rfl⟩
  | restore savedCartId =>
    simp only [LineMutation.toRequest, handle, restore, cartOrNew_of_some now hc]
    cases hs : findSavedById st savedCartId with
    | none => exact ⟨c, hc, rfl, rfl⟩
    | some s =>
      dsimp only
      split
      · exact ⟨c, hc, rfl, rfl⟩
      · exact ⟨_, findCart_saveCart_old hst hc rfl hu, rfl, rfl⟩
  | moveToCart productId quantity =>
    simp only [LineMutation.toRequest, handle, moveToCart, moveToCartWith, cartOrNew_of_some now hc]
    cases hw : findWishlist st u with
    | none => exact ⟨c, hc, rfl, rfl⟩
    | some w =>
      dsimp only
      cases hi : w.items.find? (fun item => item.productId == productId) with
      | none => exact ⟨c, hc, rfl, rfl⟩
      | some item =>
        refine ⟨recompute c (moveToCartLines c.items item productId quantity) now, ?_, rfl,
          rfl⟩
        rw [findCart_saveWishlist]
        exact findCart_saveCart_old hst hc rfl hu

/-! ## Applying a discount to a cart that has one -/

theorem applyDiscount_of_some [JsString] {st : Store} {u : String} {c : Cart}
    (hc : findCart st u = some c) (now : Nat) (code : String) {rate : ℚ}
    (hrate : discountCodes (toUpperCase code) = some rate) :
    applyDiscount st u now code
      = (saveCart st false
            { c with
              discount := c.totalAmount * rate
              discountCode := some (toUpperCase code)
              finalAmount := c.totalAmount - c.totalAmount * rate
              updatedAt := now },
          .success (some "Discount applied successfully")
            { c with
              discount := c.totalAmount * rate
              discountCode := some (toUpperCase code)
              finalAmount := c.totalAmount - c.totalAmount * rate
              updatedAt := now }) := by
  simp [applyDiscount, hc, hrate, discountCodes_ne_zero _ _ hrate]

/-- After any `applyDiscount`, valid or not, the user's cart is the old one up to discount,
discountCode, finalAmount and updatedAt. -/
theorem applyDiscount_keeps_lines [JsString] {st : Store} (hst : Inv st) {u : String} {c : Cart}
    (hc : findCart st u = some c) (now : Nat) (other : String) :
    ∃ c0, findCart (applyDiscount st u now other).1 u = some c0 ∧ c0.id = c.id ∧
      c0.userId = c.userId ∧ c0.items = c.items ∧ c0.totalAmount = c.totalAmount := by
  cases hr : discountCodes (toUpperCase other) with
  | none =>
    refine ⟨c, ?_, rfl, rfl, rfl, rfl⟩
    simp [applyDiscount, hc, hr]
  | some rate =>
    rw [applyDiscount_of_some hc now other hr]
    exact ⟨_, findCart_saveCart_old hst hc rfl (findCart_mem hc).2, rfl, rfl, rfl, rfl⟩

/-! ## Requests of one user and the documents of another -/

theorem find?_replaceFirst_of_false {α : Type} (p q : α → Bool) (d : α) (l : List α)
    (h : ∀ x ∈ l, p x = true → q x = false) (hd : q d = false) :
    (replaceFirst p d l).find? q = l.find? q := by
  induction l with
  | nil => rfl
  | cons a as ih =>
    by_cases ha : p a = true
    · simp [replaceFirst, ha, List.find?_cons, hd, h a (List.mem_cons_self _ _) ha]
    · simp only [replaceFirst, ha, Bool.false_eq_true, if_false, List.find?_cons]
      rw [ih (fun x hx => h x (List.mem_cons_of_mem _ hx))]

theorem find?_append_of_false {α : Type} (q : α → Bool) (d : α) (l : List α)
    (hd : q d = false) : (l ++ [d]).find? q = l.find? q := by
  cases h : l.find? q <;> simp [List.find?_append, h, List.find?_cons, hd]

theorem filter_deleteFirst_of_false {α : Type} (p q : α → Bool) (l : List α) (s : α)
    (hfind : l.find? p = some s) (hs : q s = false) :
    (deleteFirst p l).filter q = l.filter q := by
  induction l with
  | nil => simp at hfind
  | cons a as ih =>
    by_cases ha : p a = true
    · have : a = s := by simpa [List.find?_cons, ha] using hfind
      subst this
      simp [deleteFirst, ha, List.filter_cons, hs]
    · have hfind2 : as.find? p = some s := by simpa [List.find?_cons, ha] using hfind
      simp only [deleteFirst, ha, Bool.false_eq_true, if_false, List.filter_cons, ih hfind2]

theorem findCart_saveCart_cartOrNew_other {st : Store} (hst : Inv st) (u v : String)
    (hv : castObjectId v ≠ castObjectId u) (now : Nat) {d : Cart}
    (hid : d.id = (cartOrNew st u now).1.id) (hu : d.userId = castObjectId u) :
    findCart (saveCart st (cartOrNew st u now).2 d) v = findCart st v := by
  have hd : (fun c : Cart => c.userId == castObjectId v) d = false := by
    simpa [hu] using fun h : castObjectId u = castObjectId v => hv h.symm
  cases hc : findCart st u with
  | none =>
    rw [cartOrNew_of_none now hc]
    simp only [findCart, saveCart, if_true]
    exact find?_append_of_false _ d st.carts hd
  | some c =>
    rw [cartOrNew_of_some now hc] at hid ⊢
    have hcm := findCart_mem hc
    simp only [findCart, saveCart, Bool.false_eq_true, if_false]
    apply find?_replaceFirst_of_false _ _ d st.carts _ hd
    intro x hx hxid
    have hxc : x = c :=
      List.inj_on_of_nodup_map hst.cartIds hx hcm.1 (by simpa [hid] using hxid)
    simpa [hxc, hcm.2] using fun h : castObjectId u = castObjectId v => hv h.symm

/-- A request of user `u` leaves the cart of every other user as it was. -/
theorem handle_findCart_other [JsString] {st : Store} (hst : Inv st) (u v : String)
    (hv : castObjectId v ≠ castObjectId u) (now : Nat) (req : Request) : findCart (handle st u now req) v = findCart st v := by
  rcases handle_carts st u now req with h | ⟨d, hid, hu, h⟩
  · simp only [findCart, h]
  · have := findCart_saveCart_cartOrNew_other hst u v hv now hid hu
    simp only [findCart] at this ⊢
    rw [h]; exact this

/-- A request leaves the wishlist collection as it was, or inserts a wishlist for a user who
had none, or overwrites the user's own wishlist. -/
theorem handle_wishlists [JsString] (st : Store) (u : String) (now : Nat) (req : Request) :
    (handle st u now req).wishlists = st.wishlists ∨
    (findWishlist st u = none ∧ ∃ d : Wishlist, d.userId = castObjectId u ∧
      (handle st u now req).wishlists = st.wishlists ++ [d]) ∨
    (∃ w d, findWishlist st u = some w ∧ d.id = w.id ∧ d.userId = castObjectId u ∧
      (handle st u now req).wishlists
        = replaceFirst (fun x => x.id == d.id) d st.wishlists) := by
  cases req with
  | wishlistGet =>
    simp only [handle, wishlistGet]
    cases hw : findWishlist st u with
    | some w => exact Or.inl rfl
    | none => exact Or.inr (Or.inl ⟨rfl, newWishlist st u now, rfl, by simp [saveWishlist]⟩)
  | wishlistAddItem productId sku name unitPrice =>
    simp only [handle, wishlistAddItem]
    cases hw : findWishlist st u with
    | some w =>
      dsimp only
      cases hi : w.items.find? (fun item => item.productId == productId) with
      | some _ => exact Or.inl rfl
      | none =>
        refine Or.inr (Or.inr ⟨w, _, rfl, ?_, ?_, rfl⟩)
        exacts [rfl, (findWishlist_mem hw).2]
    | none =>
      dsimp only
      cases hi : (newWishlist st u now).items.find?
          (fun item => item.productId == productId) with
      | some _ => exact Or.inl rfl
      | none =>
        refine Or.inr (Or.inl ⟨rfl,
          { newWishlist st u now with
            items := (newWishlist st u now).items ++
              [{ productId := castObjectId productId, sku := sku, name := name,
                 unitPrice := unitPrice, addedAt := now }]
            updatedAt := now }, rfl, ?_⟩)
        simp [saveWishlist]
  | wishlistRemoveItem productId =>
    simp only [handle, wishlistRemoveItem]
    cases hw : findWishlist st u with
    | none => exact Or.inl rfl
    | some w =>
      refine Or.inr (Or.inr ⟨w, _, rfl, ?_, ?_, rfl⟩)
      exacts [rfl, (findWishlist_mem hw).2]
  | wishlistClear =>
    simp only [handle, wishlistClear]
    cases hw : findWishlist st u with
    | none => exact Or.inl rfl
    | some w =>
      refine Or.inr (Or.inr ⟨w, _, rfl, ?_, ?_, rfl⟩)
      exacts [rfl, (findWishlist_mem hw).2]
  | moveToCart productId quantity =>
    simp only [handle, moveToCart, moveToCartWith]
    cases hw : findWishlist st u with
    | none => exact Or.inl rfl
    | some w =>
      dsimp only
      cases hi : w.items.find? (fun item => item.productId == productId) with
      | none => exact Or.inl rfl
      | some item =>
        refine Or.inr (Or.inr ⟨w,
          { w with
            items := w.items.filter (fun item => item.productId != productId)
            updatedAt := now }, rfl, rfl, (findWishlist_mem hw).2, ?_⟩)
        simp [saveWishlist, saveCart_wishlists]
  | getCart =>
    left; simp only [handle, getCart]; split <;> simp [saveCart_wishlists]
  | count => left; simp only [handle, count]; split <;> rfl
  | addItem productId sku name quantity unitPrice => left; exact saveCart_wishlists _ _ _
  | updateQuantity productId quantity =>
    left; simp only [handle, updateQuantity]; (repeat' split) <;> simp [saveCart_wishlists]
  | removeItem productId =>
    left; simp only [handle, removeItem]; split <;> simp [saveCart_wishlists]
  | applyDiscount code =>
    left; simp only [handle, applyDiscount]; (repeat' split) <;> simp [saveCart_wishlists]
  | removeDiscount =>
    left; simp only [handle, removeDiscount]; split <;> simp [saveCart_wishlists]
  | validate => left; simp only [handle, validate]; (repeat' split) <;> rfl
  | save name => left; simp only [handle, save]; (repeat' split) <;> rfl
  | listSaved => left; rfl
  | restore savedCartId =>
    left; simp only [handle, restore]; (repeat' split) <;> simp [saveCart_wishlists]
  | deleteSaved savedCartId =>
    left; simp only [handle, deleteSaved]; (repeat' split) <;> rfl
  | merge guestCart => left; exact saveCart_wishlists _ _ _
  | clear => left; simp only [handle, clear]; split <;> simp [saveCart_wishlists]

/-- A request leaves the saved carts as they were, or appends a saved cart of the user, or
deletes the saved cart found under an id, which is the user's own. -/
theorem handle_savedCarts [JsString] (st : Store) (u : String) (now : Nat) (req : Request) :
    (handle st u now req).savedCarts = st.savedCarts ∨
    (∃ s : SavedCart, s.userId = castObjectId u ∧
      (handle st u now req).savedCarts = st.savedCarts ++ [s]) ∨
    (∃ savedCartId s, findSavedById st savedCartId = some s ∧ s.userId = u ∧
      (handle st u now req).savedCarts
        = deleteFirst (fun x => x.id == savedCartId) st.savedCarts) := by
  cases req with
  | save name =>
    simp only [handle, save]
    cases hc : findCart st u with
    | none => exact Or.inl rfl
    | some c =>
      dsimp only
      split
      · exact Or.inl rfl
      · exact Or.inr (Or.inl ⟨_, rfl, rfl⟩)
  | deleteSaved savedCartId =>
    simp only [handle, deleteSaved]
    cases hs : findSavedById st savedCartId with
    | none => exact Or.inl rfl
    | some s =>
      dsimp only
      split
      · exact Or.inl rfl
      · rename_i hne
        exact Or.inr (Or.inr ⟨savedCartId, s, hs, by simpa using hne, rfl⟩)
  | getCart =>
    left; simp only [handle, getCart]; split <;> simp [saveCart_savedCarts]
  | count => left; simp only [handle, count]; split <;> rfl
  | addItem productId sku name quantity unitPrice => left; exact saveCart_savedCarts _ _ _
  | updateQuantity productId quantity =>
    left; simp only [handle, updateQuantity]; (repeat' split) <;> simp [saveCart_savedCarts]
  | removeItem productId =>
    left; simp only [handle, removeItem]; split <;> simp [saveCart_savedCarts]
  | applyDiscount code =>
    left; simp only [handle, applyDiscount]; (repeat' split) <;> simp [saveCart_savedCarts]
  | removeDiscount =>
    left; simp only [handle, removeDiscount]; split <;> simp [saveCart_savedCarts]
  | validate => left; simp only [handle, validate]; (repeat' split) <;> rfl
  | listSaved => left; rfl
  | restore savedCartId =>
    left; simp only [handle, restore]; (repeat' split) <;> simp [saveCart_savedCarts]
  | merge guestCart => left; exact saveCart_savedCarts _ _ _
  | clear => left; simp only [handle, clear]; split <;> simp [saveCart_savedCarts]
  | wishlistGet =>
    left; simp only [handle, wishlistGet]; split <;> simp [saveWishlist_savedCarts]
  | wishlistAddItem productId sku name unitPrice =>
    left; simp only [handle, wishlistAddItem]
    (repeat' split) <;> simp [saveWishlist_savedCarts]
  | wishlistRemoveItem productId =>
    left; simp only [handle, wishlistRemoveItem]; split <;> simp [saveWishlist_savedCarts]
  | moveToCart productId quantity =>
    left; simp only [handle, moveToCart, moveToCartWith]
    (repeat' split) <;> simp [saveWishlist_savedCarts, saveCart_savedCarts]
  | wishlistClear =>
    left; simp only [handle, wishlistClear]; split <;> simp [saveWishlist_savedCarts]

/-- A request of user `u` leaves the wishlist of every other user as it was. -/
theorem handle_findWishlist_other [JsString] {st : Store} (hst : Inv st) (u v : String)
    (hv : castObjectId v ≠ castObjectId u) (now : Nat) (req : Request) :
    findWishlist (handle st u now req) v = findWishlist st v := by
  have hq : ∀ d : Wishlist, d.userId = castObjectId u →
      (fun w : Wishlist => w.userId == castObjectId v) d = false := by
    intro d hd
    simpa [hd] using fun h : castObjectId u = castObjectId v => hv h.symm
  rcases handle_wishlists st u now req with h | ⟨-, d, hd, h⟩ | ⟨w, d, hw, hid, hd, h⟩
  · simp only [findWishlist, h]
  · simp only [findWishlist, h]
    exact find?_append_of_false _ d st.wishlists (hq d hd)
  · simp only [findWishlist, h]
    apply find?_replaceFirst_of_false _ _ d st.wishlists _ (hq d hd)
    intro x hx hxid
    have hwm := findWishlist_mem hw
    have hxw : x = w :=
      List.inj_on_of_nodup_map hst.wishIds hx hwm.1 (by simpa [hid] using hxid)
    rw [hxw]
    exact hq w hwm.2

/-- A request of user `u` leaves the saved carts of every other user as they were. -/
theorem handle_savedCarts_other [JsString] (st : Store) (u v : String)
    (hv : castObjectId v ≠ castObjectId u) (now : Nat) (req : Request) :
    (handle st u now req).savedCarts.filter (fun s => s.userId == castObjectId v)
      = st.savedCarts.filter (fun s => s.userId == castObjectId v) := by
  have hq : ∀ s : SavedCart, s.userId = castObjectId u →
      (fun x : SavedCart => x.userId == castObjectId v) s = false := by
    intro s hs
    simpa [hs] using fun h : castObjectId u = castObjectId v => hv h.symm
  have hq2 : ∀ s : SavedCart, s.userId = u →
      (fun x : SavedCart => x.userId == castObjectId v) s = false := by
    intro s hs
    have hne : u ≠ castObjectId v := by
      intro h
      apply hv
      rw [h, castObjectId_idem]
    simpa [hs] using hne
  rcases handle_savedCarts st u now req with h | ⟨s, hs, h⟩ | ⟨id, s, hfind, hs, h⟩
  · rw [h]
  · rw [h, List.filter_append]
    have := hq s hs
    simp only at this
    simp [List.filter_cons, this]
  · rw [h]
    exact filter_deleteFirst_of_false _ _ st.savedCarts s hfind (hq2 s hs)

/-! ## The answer depends on the user's own documents -/

theorem find?_ident_of_mem {α : Type} (ident : α → Nat) (l : List α) (s : α)
    (hnd : (l.map ident).Nodup) (hs : s ∈ l) :
    l.find? (fun x => ident x == ident s) = some s := by
  induction l with
  | nil => simp at hs
  | cons a as ih =>
    rw [List.map_cons, List.nodup_cons] at hnd
    rcases List.mem_cons.1 hs with rfl | hs
    · simp
    · have : ident a ≠ ident s := by
        intro h
        exact hnd.1 (h ▸ List.mem_map_of_mem ident hs)
      simp [List.find?_cons, this, ih hnd.2 hs]

theorem findSavedById_transfer {st1 st2 : Store} (h2 : Inv st2) (u : String)
    (hsaved : st1.savedCarts.filter (fun s => s.userId == u)
      = st2.savedCarts.filter (fun s => s.userId == u))
    (savedCartId : Nat) (s : SavedCart) (hfind : findSavedById st1 savedCartId = some s)
    (hs : s.userId = u) : findSavedById st2 savedCartId = some s := by
  have hmem : s ∈ st1.savedCarts := List.mem_of_find?_eq_some hfind
  have hid : s.id = savedCartId := by simpa using List.find?_some hfind
  have hmem2 : s ∈ st2.savedCarts := by
    have : s ∈ st1.savedCarts.filter (fun s => s.userId == u) :=
      List.mem_filter.2 ⟨hmem, by simpa using hs⟩
    rw [hsaved] at this
    exact (List.mem_filter.1 this).1
  have := find?_ident_of_mem (fun x : SavedCart => x.id) st2.savedCarts s h2.savedIds hmem2
  simpa [findSavedById, hid] using this

theorem findSavedById_congr {st1 st2 : Store} (h1 : Inv st1) (h2 : Inv st2) (u : String)
    (hsaved : st1.savedCarts.filter (fun s => s.userId == u)
      = st2.savedCarts.filter (fun s => s.userId == u))
    (savedCartId : Nat)
    (hf1 : ∀ s, findSavedById st1 savedCartId = some s → s.userId = u)
    (hf2 : ∀ s, findSavedById st2 savedCartId = some s → s.userId = u) :
    findSavedById st1 savedCartId = findSavedById st2 savedCartId := by
  cases hs1 : findSavedById st1 savedCartId with
  | some s1 =>
    exact (findSavedById_transfer h2 u hsaved savedCartId s1 hs1 (hf1 s1 hs1)).symm
  | none =>
    cases hs2 : findSavedById st2 savedCartId with
    | none => rfl
    | some s2 =>
      have := findSavedById_transfer h1 u hsaved.symm savedCartId s2 hs2 (hf2 s2 hs2)
      rw [hs1] at this
      cases this

theorem cartOrNew_congr {st1 st2 : Store} (u : String) (now : Nat)
    (hcart : findCart st1 u = findCart st2 u) (hid : st1.nextId = st2.nextId) :
    cartOrNew st1 u now = cartOrNew st2 u now := by
  simp only [cartOrNew, newCart, hcart, hid]

/-- In two stores that hold the same documents for the user, a request that does not name
another user's saved cart gets the same answer. -/
theorem reply_congr [JsString] {st1 st2 : Store} (h1 : Inv st1) (h2 : Inv st2) (u : String)
    (hview : sameViewFor u st1 st2) (now : Nat) (req : Request)
    (hf1 : ¬ namesForeignSavedCart st1 u req) (hf2 : ¬ namesForeignSavedCart st2 u req) :
    reply st1 u now req = reply st2 u now req := by
  obtain ⟨hcart, hwish, hsaved, hid⟩ := hview
  have hcn := cartOrNew_congr u now hcart hid
  cases req with
  | getCart =>
    simp only [reply, getCart, newCart, hcart, hid]
    cases findCart st2 u <;> rfl
  | count =>
    simp only [reply, count, hcart]
    cases findCart st2 u <;> rfl
  | addItem productId sku name quantity unitPrice =>
    simp only [reply, addItem, hcn]
  | updateQuantity productId quantity =>
    simp only [reply, updateQuantity, hcart]
    cases hc : findCart st2 u with
    | none => rfl
    | some c =>
      dsimp only
      cases findIndex (fun item => item.productId == productId) c.items <;> rfl
  | removeItem productId =>
    simp only [reply, removeItem, hcart]
    cases findCart st2 u <;> rfl
  | applyDiscount code =>
    simp only [reply, applyDiscount, hcart]
    cases hc : findCart st2 u with
    | none => rfl
    | some c =>
      dsimp only
      cases discountCodes (toUpperCase code) with
      | none => rfl
      | some rate => dsimp only; split <;> rfl
  | removeDiscount =>
    simp only [reply, removeDiscount, hcart]
    cases findCart st2 u <;> rfl
  | validate =>
    simp only [reply, validate, hcart]
    cases findCart st2 u with
    | none => rfl
    | some c => dsimp only; split <;> rfl
  | save name =>
    simp only [reply, save, hcart, hid]
    cases findCart st2 u with
    | none => rfl
    | some c => dsimp only; split <;> rfl
  | listSaved =>
    simp only [reply, listSaved, hsaved]
  | restore savedCartId =>
    have hs : findSavedById st1 savedCartId = findSavedById st2 savedCartId :=
      findSavedById_congr h1 h2 (castObjectId u) hsaved savedCartId
        (fun s hs => by
          by_contra hne
          exact hf1 ⟨s, hs, hne⟩)
        (fun s hs => by
          by_contra hne
          exact hf2 ⟨s, hs, hne⟩)
    simp only [reply, restore, hs, hcn]
    cases findSavedById st2 savedCartId with
    | none => rfl
    | some s => dsimp only; split <;> rfl
  | deleteSaved savedCartId =>
    have hs : findSavedById st1 savedCartId = findSavedById st2 savedCartId :=
      findSavedById_congr h1 h2 (castObjectId u) hsaved savedCartId
        (fun s hs => by
          by_contra hne
          exact hf1 ⟨s, hs, hne⟩)
        (fun s hs => by
          by_contra hne
          exact hf2 ⟨s, hs, hne⟩)
    simp only [reply, deleteSaved, hs]
    cases findSavedById st2 savedCartId with
    | none => rfl
    | some s => dsimp only; split <;> rfl
  | merge guestCart =>
    simp only [reply, merge, hcn]
  | clear =>
    simp only [reply, clear, hcart]
    cases findCart st2 u <;> rfl
  | wishlistGet =>
    simp only [reply, wishlistGet, newWishlist, hwish, hid]
    cases findWishlist st2 u <;> rfl
  | wishlistAddItem productId sku name unitPrice =>
    simp only [reply, wishlistAddItem, newWishlist, hwish, hid]
    cases hw : findWishlist st2 u with
    | none => rfl
    | some w =>
      dsimp only
      cases w.items.find? (fun item => item.productId == productId) <;> rfl
  | wishlistRemoveItem productId =>
    simp only [reply, wishlistRemoveItem, hwish]
    cases findWishlist st2 u <;> rfl
  | moveToCart productId quantity =>
    simp only [reply, moveToCart, moveToCartWith, hwish, hcn]
    cases hw : findWishlist st2 u with
    | none => rfl
    | some w =>
      dsimp only
      cases w.items.find? (fun item => item.productId == productId) <;> rfl
  | wishlistClear =>
    simp only [reply, wishlistClear, hwish]
    cases findWishlist st2 u <;> rfl

/-! ## Claims -/

/-- C1: in every store reachable from the empty store by any sequence of requests (all cart
and wishlist routes, of any users), every cart has `finalAmount = totalAmount - discount` and
`totalAmount` equal to the sum of its items' `totalPrice`. -/
theorem reachable_cart_totals [JsString] (st : Store) (h : Reachable st) :
    ∀ c ∈ st.carts, c.finalAmount = c.totalAmount - c.discount ∧
      c.totalAmount = (c.items.map (fun item => item.totalPrice)).sum :=
  fun c hc => ⟨(h.inv.cartOk c hc).final, (h.inv.cartOk c hc).total⟩

/-- Witness of C1: the store after `addItem` then `applyDiscount("save10")`. -/
theorem reachable_cart_totals_witness :
    Reachable (handle (handle Store.empty "u" 1 (.addItem "p" "sku" "pen" 2 5)) "u" 2
      (.applyDiscount "save10")) ∧
    ∀ c ∈ (handle (handle Store.empty "u" 1 (.addItem "p" "sku" "pen" 2 5)) "u" 2
      (.applyDiscount "save10")).carts,
      c.finalAmount = c.totalAmount - c.discount ∧
      c.totalAmount = (c.items.map (fun item => item.totalPrice)).sum :=
  ⟨Reachable.step _ _ _ (Reachable.step _ _ _ Reachable.empty),
   reachable_cart_totals _ (Reachable.step _ _ _ (Reachable.step _ _ _ Reachable.empty))⟩

/-- C2 (evaluation at the failing input): for a user with no cart, `addItem("p", 1, 10)`
followed by `addItem("p", 1, 20)` leaves one line with quantity 2 and unitPrice 10, and
`totalAmount = 40`, which is not the sum of `quantity * unitPrice` (that is 20). -/
theorem addItem_twice_total_not_quantity_times_price :
    ∃ c, findCart (addItem (addItem Store.empty "u" 1 "p" "sku" "pen" 1 10).1
        "u" 2 "p" "sku" "pen" 1 20).1 "u" = some c ∧
      c.items = [{ productId := "p", sku := "sku", name := "pen", quantity := 2,
                   unitPrice := 10, totalPrice := 40 }] ∧
      c.totalAmount = 40 ∧
      (c.items.map (fun item => (item.quantity : ℚ) * item.unitPrice)).sum = 20 ∧
      c.totalAmount ≠ (c.items.map (fun item => (item.quantity : ℚ) * item.unitPrice)).sum := by
  refine ⟨{ id := 0, userId := "u",
            items := [{ productId := "p", sku := "sku", name := "pen", quantity := 2,
                        unitPrice := 10, totalPrice := 40 }],
            totalAmount := 40, discount := 0, discountCode := none, finalAmount := 40,
            updatedAt := 2 }, ?_, rfl, rfl, ?_, ?_⟩
  · decide!
  · decide!
  · decide!

/-- C3 (evaluation at the failing input): on a cart holding the line `p` with quantity 1 and
unitPrice 10, `addItem(p, 1, 20)` sets the line's totalPrice to `2 * 20 = 40`, not to
`2 * 10 = 20`, and `addItem(p, 1, 10)` yields a different cart: the argument is not ignored. -/
theorem addItem_existing_line_uses_argument_price :
    (addItemLines [{ productId := "p", sku := "sku", name := "pen", quantity := 1,
                     unitPrice := 10, totalPrice := 10 }] "p" "sku" "pen" 1 20
      = [{ productId := "p", sku := "sku", name := "pen", quantity := 2,
           unitPrice := 10, totalPrice := 40 }]) ∧
    (addItem (addItem Store.empty "u" 1 "p" "sku" "pen" 1 10).1 "u" 2 "p" "sku" "pen" 1 20).2
      ≠ (addItem (addItem Store.empty "u" 1 "p" "sku" "pen" 1 10).1 "u" 2 "p" "sku" "pen" 1 10).2
    := by
  constructor
  · decide!
  · decide!

/-- C4: when the user's cart (in a store satisfying the invariant, so in every reachable store)
has a line `x` for `productId`, after the lines `pre`, none of which is for `productId`, and
before the lines `post`, `addItem` succeeds and leaves the cart with the lines `pre`, then `x`
with quantity `x.quantity + quantity` and its stored unitPrice (productId, sku and name kept),
then `post`: no line is appended and every other line is unchanged. This is the cart sent back
and the cart stored. -/
theorem addItem_existing_line (st : Store) (hst : Inv st) (userId : String) (now : Nat)
    (productId sku name : String) (quantity : Int) (unitPrice : ℚ) (c : Cart)
    (pre post : List CartItem) (x : CartItem) (hc : findCart st userId = some c)
    (hitems : c.items = pre ++ x :: post) (hx : x.productId = productId)
    (hpre : ∀ y ∈ pre, y.productId ≠ productId) :
    ∃ c' x', (addItem st userId now productId sku name quantity unitPrice).2
        = .success (some "Item added to cart") c' ∧
      findCart (addItem st userId now productId sku name quantity unitPrice).1 userId = some c' ∧
      c'.items = pre ++ x' :: post ∧
      x'.quantity = x.quantity + quantity ∧ x'.unitPrice = x.unitPrice ∧
      x'.productId = x.productId ∧ x'.sku = x.sku ∧ x'.name = x.name ∧
      c'.items.length = c.items.length := by
  have hlines := addItemLines_existing pre post x productId sku name quantity unitPrice hx hpre
  refine ⟨recompute c (addItemLines c.items productId sku name quantity unitPrice) now,
    { x with
      quantity := x.quantity + quantity
      totalPrice := ((x.quantity + quantity : Int) : ℚ) * unitPrice }, ?_, ?_, ?_, rfl, rfl, rfl,
    rfl, rfl, ?_⟩
  · simp [addItem, cartOrNew_of_some now hc]
  · simp only [addItem, cartOrNew_of_some now hc]
    exact findCart_saveCart_old hst hc rfl (findCart_mem hc).2
  · simp only [recompute, hitems, hlines]
  · simp only [recompute, hitems, hlines, List.length_append, List.length_cons]

/-- Witness of C4: on the cart made by `addItem("p", 1, 10)`, `addItem("p", 3, 20)` leaves one
line with quantity 4 and unitPrice 10. -/
theorem addItem_existing_line_witness :
    ∃ c' x', (addItem (addItem Store.empty "u" 1 "p" "sku" "pen" 1 10).1 "u" 2 "p" "sku" "pen"
        3 20).2 = .success (some "Item added to cart") c' ∧
      findCart (addItem (addItem Store.empty "u" 1 "p" "sku" "pen" 1 10).1 "u" 2 "p" "sku" "pen"
        3 20).1 "u" = some c' ∧
      c'.items = [] ++ x' :: [] ∧
      x'.quantity = 1 + 3 ∧ x'.unitPrice = 10 ∧
      x'.productId = "p" ∧ x'.sku = "sku" ∧ x'.name = "pen" ∧
      c'.items.length = 1 :=
  addItem_existing_line (addItem Store.empty "u" 1 "p" "sku" "pen" 1 10).1
    (Inv.empty.addItem "u" 1 "p" "sku" "pen" 1 10) "u" 2 "p" "sku" "pen" 3 20
    { id := 0, userId := "u",
      items := [{ productId := "p", sku := "sku", name := "pen", quantity := 1,
                  unitPrice := 10, totalPrice := 10 }],
      totalAmount := 10, discount := 0, discountCode := none, finalAmount := 10,
      updatedAt := 1 }
    [] [] { productId := "p", sku := "sku", name := "pen", quantity := 1,
            unitPrice := 10, totalPrice := 10 }
    (by decide!) rfl rfl (by simp)

/-- C5: for a user who has the cart `c`, any `code` and any `toUpperCase` of JavaScript
strings: when the upper-cased code is a key of `discountCodes` (with rate `rate`),
`applyDiscount` succeeds and the cart, sent back and stored, has `discount = totalAmount * rate`,
`discountCode` the upper-cased code, `finalAmount = totalAmount - discount`, and the items and
totalAmount of `c`; when it is not a key, the answer is status 400 `Invalid discount code` and
the store is unchanged. The keys are exactly SAVE10, SAVE20, WELCOME and FIRSTORDER, with the
rates 1/10, 1/5, 3/20 and 1/4. Any letter case: when `code` is an ASCII string whose
upper-casing is the key `key` (any of the spellings of the key in lower- and upper-case letters),
`applyDiscount` succeeds with `discount = totalAmount * rate` and `discountCode = key`; so
`save10`, `Save10` and `SAVE10` all upper-case to `SAVE10`. -/
theorem applyDiscount_valid_or_rejected [JsString] (st : Store) (hst : Inv st)
    (userId : String) (now : Nat) (code : String) (c : Cart)
    (hc : findCart st userId = some c) :
    (∀ rate, discountCodes (toUpperCase code) = some rate →
      ∃ c', (applyDiscount st userId now code).2
          = .success (some "Discount applied successfully") c' ∧
        findCart (applyDiscount st userId now code).1 userId = some c' ∧
        c'.discount = c.totalAmount * rate ∧
        c'.discountCode = some (toUpperCase code) ∧
        c'.finalAmount = c'.totalAmount - c'.discount ∧
        c'.items = c.items ∧ c'.totalAmount = c.totalAmount) ∧
    (discountCodes (toUpperCase code) = none →
      applyDiscount st userId now code = (st, .failure 400 "Invalid discount code")) ∧
    (∀ key, (discountCodes key).isSome = true ↔
      key = "SAVE10" ∨ key = "SAVE20" ∨ key = "WELCOME" ∨ key = "FIRSTORDER") ∧
    (∀ key rate, discountCodes key = some rate → isAscii code = true →
      asciiUpperCase code = key →
      ∃ c', (applyDiscount st userId now code).2
          = .success (some "Discount applied successfully") c' ∧
        findCart (applyDiscount st userId now code).1 userId = some c' ∧
        c'.discount = c.totalAmount * rate ∧
        c'.discountCode = some key ∧
        c'.finalAmount = c.totalAmount - c.totalAmount * rate ∧
        c'.items = c.items ∧ c'.totalAmount = c.totalAmount) ∧
    toUpperCase "save10" = "SAVE10" ∧ toUpperCase "Save10" = "SAVE10" ∧
    toUpperCase "SAVE10" = "SAVE10" ∧
    discountCodes "SAVE10" = some (1 / 10) ∧ discountCodes "SAVE20" = some (1 / 5) ∧
    discountCodes "WELCOME" = some (3 / 20) ∧ discountCodes "FIRSTORDER" = some (1 / 4) := by
  have hvalid : ∀ rate, discountCodes (toUpperCase code) = some rate →
      ∃ c', (applyDiscount st userId now code).2
          = .success (some "Discount applied successfully") c' ∧
        findCart (applyDiscount st userId now code).1 userId = some c' ∧
        c'.discount = c.totalAmount * rate ∧
        c'.discountCode = some (toUpperCase code) ∧
        c'.finalAmount = c'.totalAmount - c'.discount ∧
        c'.items = c.items ∧ c'.totalAmount = c.totalAmount := by
    intro rate hrate
    have hne : rate ≠ 0 := discountCodes_ne_zero _ _ hrate
    refine ⟨{ c with
        discount := c.totalAmount * rate
        discountCode := some (toUpperCase code)
        finalAmount := c.totalAmount - c.totalAmount * rate
        updatedAt := now }, ?_, ?_, rfl, rfl, rfl, rfl, rfl⟩
    · simp [applyDiscount, hc, hrate, hne]
    · simp only [applyDiscount, hc, hrate, hne, if_false]
      exact findCart_saveCart_old hst hc rfl (findCart_mem hc).2
  refine ⟨hvalid, ?_, discountCodes_keys, ?_,
    (JsString.upper_ascii _ (by decide)).trans (by decide),
    (JsString.upper_ascii _ (by decide)).trans (by decide),
    (JsString.upper_ascii _ (by decide)).trans (by decide), ?_, ?_, ?_, ?_⟩
  · intro hnone
    simp [applyDiscount, hc, hnone]
  · intro key rate hrate hascii hkey
    have hup : toUpperCase code = key := (JsString.upper_ascii code hascii).trans hkey
    obtain ⟨c', h1, h2, h3, h4, h5, h6, h7⟩ := hvalid rate (by rw [hup]; exact hrate)
    exact ⟨c', h1, h2, h3, by rw [h4, hup], by rw [h5, h3, h7], h6, h7⟩
  · simp only [discountCodes, if_true]
    norm_num
  · rw [discountCodes, if_neg (by decide), if_pos rfl]
    norm_num
  · rw [discountCodes, if_neg (by decide), if_neg (by decide), if_pos rfl]
    norm_num
  · rw [discountCodes, if_neg (by decide), if_neg (by decide), if_neg (by decide), if_pos rfl]
    norm_num

/-- Witness of C5: on the cart made by `addItem("p", 2, 5)` (totalAmount 10),
`applyDiscount("sAvE10")` gives discount 1, code `SAVE10` and finalAmount 9. -/
theorem applyDiscount_valid_or_rejected_witness :
    ∃ c', (applyDiscount (addItem Store.empty "u" 1 "p" "sku" "pen" 2 5).1 "u" 2 "sAvE10").2
        = .success (some "Discount applied successfully") c' ∧
      c'.discount = 1 ∧ c'.discountCode = some "SAVE10" ∧ c'.finalAmount = 9 ∧
      c'.totalAmount = 10 := by
  obtain ⟨-, -, -, h, -⟩ := applyDiscount_valid_or_rejected
    (addItem Store.empty "u" 1 "p" "sku" "pen" 2 5).1
    (Inv.empty.addItem "u" 1 "p" "sku" "pen" 2 5) "u" 2 "sAvE10"
    { id := 0, userId := "u",
      items := [{ productId := "p", sku := "sku", name := "pen", quantity := 2,
                  unitPrice := 5, totalPrice := 10 }],
      totalAmount := 10, discount := 0, discountCode := none, finalAmount := 10,
      updatedAt := 1 }
    (by decide!)
  obtain ⟨c', h1, -, h3, h4, h5, -, h7⟩ := h "SAVE10" (1 / 10) (by decide!) (by decide)
    (by decide)
  refine ⟨c', h1, ?_, h4, ?_, h7⟩
  · rw [h3]; norm_num
  · rw [h5]; norm_num

/-- C6 (evaluation at the failing input): a user with no cart sends `addItem` twice with the
productId `ABCDEFABCDEFABCDEFABCDEF` (quantity 1, unitPrice 10). The store is reachable and the
cart has two lines for the product, both stored as `abcdefabcdefabcdefabcdef`. Then
`updateQuantity` of that product with quantity 0 succeeds and splices the first line only: the
cart it sends back and stores still has a line for the product. With the productId in upper
case, as it was sent to `addItem`, `updateQuantity` answers 404 `Item not found in cart`. -/
theorem updateQuantity_zero_leaves_line_for_product [JsString] :
    Reachable (handle (handle Store.empty "0123456789abcdef01234567" 1
        (.addItem "ABCDEFABCDEFABCDEFABCDEF" "sku" "pen" 1 10)) "0123456789abcdef01234567" 2
        (.addItem "ABCDEFABCDEFABCDEFABCDEF" "sku" "pen" 1 10)) ∧
    (findCart (handle (handle Store.empty "0123456789abcdef01234567" 1
        (.addItem "ABCDEFABCDEFABCDEFABCDEF" "sku" "pen" 1 10)) "0123456789abcdef01234567" 2
        (.addItem "ABCDEFABCDEFABCDEFABCDEF" "sku" "pen" 1 10))
        "0123456789abcdef01234567").map (fun c => c.items.map (fun item => item.productId))
      = some ["abcdefabcdefabcdefabcdef", "abcdefabcdefabcdefabcdef"] ∧
    (∃ c', (updateQuantity (handle (handle Store.empty "0123456789abcdef01234567" 1
          (.addItem "ABCDEFABCDEFABCDEFABCDEF" "sku" "pen" 1 10)) "0123456789abcdef01234567" 2
          (.addItem "ABCDEFABCDEFABCDEFABCDEF" "sku" "pen" 1 10))
          "0123456789abcdef01234567" 3 "abcdefabcdefabcdefabcdef" 0).2
          = .success (some "Cart updated") c' ∧
        findCart (updateQuantity (handle (handle Store.empty "0123456789abcdef01234567" 1
          (.addItem "ABCDEFABCDEFABCDEFABCDEF" "sku" "pen" 1 10)) "0123456789abcdef01234567" 2
          (.addItem "ABCDEFABCDEFABCDEFABCDEF" "sku" "pen" 1 10))
          "0123456789abcdef01234567" 3 "abcdefabcdefabcdefabcdef" 0).1
          "0123456789abcdef01234567" = some c' ∧
        c'.items = [{ productId := "abcdefabcdefabcdefabcdef", sku := "sku", name := "pen",
                      quantity := 1, unitPrice := 10, totalPrice := 10 }]) ∧
    (updateQuantity (handle (handle Store.empty "0123456789abcdef01234567" 1
        (.addItem "ABCDEFABCDEFABCDEFABCDEF" "sku" "pen" 1 10)) "0123456789abcdef01234567" 2
        (.addItem "ABCDEFABCDEFABCDEFABCDEF" "sku" "pen" 1 10))
        "0123456789abcdef01234567" 3 "ABCDEFABCDEFABCDEFABCDEF" 0).2
      = .failure 404 "Item not found in cart" := by
  refine ⟨Reachable.step _ _ _ (Reachable.step _ _ _ Reachable.empty), ?_,
    ⟨{ id := 0, userId := "0123456789abcdef01234567",
       items := [{ productId := "abcdefabcdefabcdefabcdef", sku := "sku", name := "pen",
                   quantity := 1, unitPrice := 10, totalPrice := 10 }],
       totalAmount := 10, discount := 0, discountCode := none, finalAmount := 10,
       updatedAt := 3 }, ?_, ?_, rfl⟩, ?_⟩
  all_goals simp only [handle]
  all_goals decide!

/-- C7 (evaluation at the failing input): the user whose token carries the id
`ABCDEF0123456789ABCDEF01` adds an item and saves the cart: the saved cart has `_id` 1 and
the owner `abcdef0123456789abcdef01`, and `listSaved` of the same user lists it. The user's own
`restore(1)`, with no mutation in between, answers status 403 `Access denied` and leaves the
store unchanged, and so does the user's own `deleteSaved(1)`. -/
theorem owner_restore_denied_for_uppercase_token_id :
    (∃ s, (save (addItem Store.empty "ABCDEF0123456789ABCDEF01" 1 "0123456789abcdef01234567"
          "sku" "pen" 2 5).1 "ABCDEF0123456789ABCDEF01" 2 (some "mine")).2
          = .success (some "Cart saved successfully") s ∧
        s.id = 1 ∧ s.userId = "abcdef0123456789abcdef01" ∧
        (listSaved (save (addItem Store.empty "ABCDEF0123456789ABCDEF01" 1
          "0123456789abcdef01234567" "sku" "pen" 2 5).1 "ABCDEF0123456789ABCDEF01" 2
          (some "mine")).1 "ABCDEF0123456789ABCDEF01").2 = .success none [s]) ∧
    restore (save (addItem Store.empty "ABCDEF0123456789ABCDEF01" 1 "0123456789abcdef01234567"
        "sku" "pen" 2 5).1 "ABCDEF0123456789ABCDEF01" 2 (some "mine")).1
        "ABCDEF0123456789ABCDEF01" 3 1
      = ((save (addItem Store.empty "ABCDEF0123456789ABCDEF01" 1 "0123456789abcdef01234567"
          "sku" "pen" 2 5).1 "ABCDEF0123456789ABCDEF01" 2 (some "mine")).1,
        .failure 403 "Access denied") ∧
    deleteSaved (save (addItem Store.empty "ABCDEF0123456789ABCDEF01" 1
        "0123456789abcdef01234567" "sku" "pen" 2 5).1 "ABCDEF0123456789ABCDEF01" 2
        (some "mine")).1 "ABCDEF0123456789ABCDEF01" 1
      = ((save (addItem Store.empty "ABCDEF0123456789ABCDEF01" 1 "0123456789abcdef01234567"
          "sku" "pen" 2 5).1 "ABCDEF0123456789ABCDEF01" 2 (some "mine")).1,
        .failure 403 "Access denied") := by
  refine ⟨⟨{ id := 1, userId := "abcdef0123456789abcdef01", name := "mine",
             items := [{ productId := "0123456789abcdef01234567", sku := "sku", name := "pen",
                         quantity := 2, unitPrice := 5, totalPrice := 10 }],
             totalAmount := 10, savedAt := 2 }, ?_, rfl, rfl, ?_⟩, ?_, ?_⟩
  all_goals decide!

/-- C8: for every saved cart `s` of a store satisfying the invariant and every acting user
other than the owner of `s`, `restore(s.id)` and `deleteSaved(s.id)` both answer status 403
`Access denied`, whatever the acting user's own cart is, and the store is unchanged. -/
theorem foreign_saved_cart_forbidden (st : Store) (hst : Inv st) (s : SavedCart)
    (hs : s ∈ st.savedCarts) (userId : String) (hne : userId ≠ s.userId) (now : Nat) :
    restore st userId now s.id = (st, .failure 403 "Access denied") ∧
    deleteSaved st userId s.id = (st, .failure 403 "Access denied") := by
  have hfind : findSavedById st s.id = some s := by
    unfold findSavedById
    have hnd := hst.savedIds
    revert hs hnd
    generalize st.savedCarts = l
    intro hs hnd
    induction l with
    | nil => simp at hs
    | cons a as ih =>
      rw [List.map_cons, List.nodup_cons] at hnd
      rcases List.mem_cons.1 hs with rfl | hs
      · simp
      · have : a.id ≠ s.id := by
          intro h
          exact hnd.1 (h ▸ List.mem_map_of_mem (fun x : SavedCart => x.id) hs)
        simp [List.find?_cons, this, ih hs hnd.2]
  have hne2 : (s.userId != userId) = true := by
    simpa using fun h : s.userId = userId => hne h.symm
  constructor
  · simp [restore, hfind, hne2]
  · simp [deleteSaved, hfind, hne2]

/-- Witness of C8: user `a` saves a cart, user `b` tries to restore and to delete it. -/
theorem foreign_saved_cart_forbidden_witness :
    restore (save (addItem Store.empty "a" 1 "p" "sku" "pen" 2 5).1 "a" 2 (some "mine")).1
        "b" 3 1
      = ((save (addItem Store.empty "a" 1 "p" "sku" "pen" 2 5).1 "a" 2 (some "mine")).1,
          .failure 403 "Access denied") ∧
    deleteSaved (save (addItem Store.empty "a" 1 "p" "sku" "pen" 2 5).1 "a" 2 (some "mine")).1
        "b" 1
      = ((save (addItem Store.empty "a" 1 "p" "sku" "pen" 2 5).1 "a" 2 (some "mine")).1,
          .failure 403 "Access denied") :=
  foreign_saved_cart_forbidden
    (save (addItem Store.empty "a" 1 "p" "sku" "pen" 2 5).1 "a" 2 (some "mine")).1
    ((Inv.empty.addItem "a" 1 "p" "sku" "pen" 2 5).save "a" 2 (some "mine"))
    { id := 1, userId := "a", name := "mine",
      items := [{ productId := "p", sku := "sku", name := "pen", quantity := 2,
                  unitPrice := 5, totalPrice := 10 }],
      totalAmount := 10, savedAt := 2 }
    (by decide!) "b" (by decide) 3

/-- C9: when the user's wishlist `w` holds `item` for `productId`, `moveToCart` succeeds; the
wishlist, sent back and stored, is `w` without the items for `productId`, the others unchanged
and in order; the cart, sent back and stored (created if the user had none), has a line for
`productId`: with no cart, or a cart without such a line, the line is appended with the given
quantity, the wishlist item's unitPrice and `totalPrice = quantity * unitPrice`; with a cart
that has the line `x` for it, after the lines `pre`, none of which is for `productId`, and
before `post`, that line gets quantity `x.quantity + quantity` and keeps the cart's unitPrice
`x.unitPrice`, the other lines unchanged. -/
theorem moveToCart_moves_item (st : Store) (hst : Inv st) (userId : String) (now : Nat)
    (productId : String) (quantity : Int) (w : Wishlist) (item : WishlistItem)
    (hw : findWishlist st userId = some w)
    (hitem : w.items.find? (fun i => i.productId == productId) = some item) :
    ∃ c' w', (moveToCart st userId now productId quantity).2
        = .success (some "Item moved to cart") (c', w') ∧
      findCart (moveToCart st userId now productId quantity).1 userId = some c' ∧
      findWishlist (moveToCart st userId now productId quantity).1 userId = some w' ∧
      w'.items = w.items.filter (fun i => i.productId != productId) ∧
      (∀ i ∈ w'.items, i.productId ≠ productId) ∧
      (findCart st userId = none →
        c'.items = [{ productId := productId, sku := item.sku, name := item.name,
                      quantity := quantity, unitPrice := item.unitPrice,
                      totalPrice := (quantity : ℚ) * item.unitPrice }]) ∧
      (∀ c, findCart st userId = some c → (∀ y ∈ c.items, y.productId ≠ productId) →
        c'.items = c.items ++
                   [{ productId := productId, sku := item.sku, name := item.name,
                      quantity := quantity, unitPrice := item.unitPrice,
                      totalPrice := (quantity : ℚ) * item.unitPrice }]) ∧
      (∀ c pre x post, findCart st userId = some c → c.items = pre ++ x :: post →
        x.productId = productId → (∀ y ∈ pre, y.productId ≠ productId) →
        ∃ x', c'.items = pre ++ x' :: post ∧ x'.quantity = x.quantity + quantity ∧
          x'.unitPrice = x.unitPrice ∧ x'.productId = productId ∧ x'.sku = x.sku ∧
          x'.name = x.name) := by
  have hp : item.productId = productId := by simpa using List.find?_some hitem
  have hinv1 : Inv (saveCart st (cartOrNew st userId now).2
      (recompute (cartOrNew st userId now).1
        (moveToCartLines (cartOrNew st userId now).1.items item productId quantity) now)) :=
    hst.saveCart_cartOrNew userId now rfl (recompute_ok _ _ _)
  have hfilter : ∀ i ∈ w.items.filter (fun i => i.productId != productId),
      i.productId ≠ productId := by
    intro i hi
    simpa using (List.mem_filter.1 hi).2
  refine ⟨recompute (cartOrNew st userId now).1
      (moveToCartLines (cartOrNew st userId now).1.items item productId quantity) now,
    { w with items := w.items.filter (fun i => i.productId != productId), updatedAt := now },
    ?_, ?_, ?_, rfl, hfilter, ?_, ?_, ?_⟩
  · simp [moveToCart, moveToCartWith, moveToCartLines, hw, hitem]
  · simp only [moveToCart, moveToCartWith, hw, hitem, findCart_saveWishlist]
    exact findCart_saveCart_cartOrNew hst userId now rfl (cartOrNew_userId userId now)
  · simp only [moveToCart, moveToCartWith, hw, hitem]
    exact findWishlist_saveWishlist_old (w := w) hinv1
      (by rw [findWishlist_saveCart]; exact hw) rfl (findWishlist_mem hw).2
  · intro hnone
    rw [cartOrNew_of_none now hnone]
    simp only [recompute, newCart]
    rw [moveToCartLines_absent _ _ _ _ (by simp), hp]
    rfl
  · intro c hc habs
    rw [cartOrNew_of_some now hc]
    simp only [recompute]
    rw [moveToCartLines_absent _ _ _ _ habs, hp]
  · intro c pre x post hc hitems hx hpre
    rw [cartOrNew_of_some now hc]
    simp only [recompute, hitems]
    rw [moveToCartLines_existing pre post x item productId quantity hx hpre]
    exact ⟨_, rfl, rfl, rfl, hx, rfl, rfl⟩

/-- Witness of C9: the user puts `p` (price 7) on the wishlist and moves 2 of it to the cart,
having no cart yet. -/
theorem moveToCart_moves_item_witness :
    ∃ c' w', (moveToCart (wishlistAddItem Store.empty "u" 1 "p" "sku" "pen" 7).1 "u" 2 "p" 2).2
        = .success (some "Item moved to cart") (c', w') ∧
      w'.items = [] ∧
      c'.items = [{ productId := "p", sku := "sku", name := "pen", quantity := 2,
                    unitPrice := 7, totalPrice := 14 }] := by
  obtain ⟨c', w', h1, -, -, h4, -, h6, -, -⟩ := moveToCart_moves_item
    (wishlistAddItem Store.empty "u" 1 "p" "sku" "pen" 7).1
    (Inv.empty.wishlistAddItem "u" 1 "p" "sku" "pen" 7) "u" 2 "p" 2
    { id := 0, userId := "u",
      items := [{ productId := "p", sku := "sku", name := "pen", unitPrice := 7, addedAt := 1 }],
      updatedAt := 1 }
    { productId := "p", sku := "sku", name := "pen", unitPrice := 7, addedAt := 1 }
    (by decide!) (by decide!)
  refine ⟨c', w', h1, ?_, ?_⟩
  · rw [h4]; decide
  · rw [h6 (by decide!)]
    norm_num

/-- C10: for every store, user and list of guest items, `merge` succeeds and the cart it
sends back and saves has as items the result of the specification's rule (`specMerge`: guest
items left to right, added to the line with the same productId at that line's unitPrice, else
appended with all the guest item's fields, its own unitPrice included, the productId as the
ObjectId it names) run on the user's cart items, or on no items when the user has no cart; its
totalAmount is the sum of the items' totalPrice, its discount is the cart's (0 without a cart)
and `finalAmount = totalAmount - discount`. -/
theorem merge_refines_spec (st : Store) (userId : String) (now : Nat)
    (guestCart : List CartItem) :
    ∃ c', merge st userId now guestCart
        = (saveCart st (findCart st userId).isNone c',
            .success (some "Carts merged successfully") c') ∧
      c'.userId = castObjectId userId ∧
      c'.items = specMerge (match findCart st userId with
        | some c => c.items
        | none => []) guestCart ∧
      c'.totalAmount = (c'.items.map (fun item => item.totalPrice)).sum ∧
      c'.discount = (match findCart st userId with
        | some c => c.discount
        | none => 0) ∧
      c'.finalAmount = c'.totalAmount - c'.discount := by
  cases hc : findCart st userId with
  | none =>
    refine ⟨recompute (newCart st userId now) (guestCart.foldl mergeGuestItem []) now,
      ?_, rfl, ?_, sumTotalPrice_eq_sum _, rfl, rfl⟩
    · simp [merge, cartOrNew_of_none now hc, newCart]
    · exact foldl_mergeGuestItem_eq_specMerge guestCart []
  | some c =>
    refine ⟨recompute c (guestCart.foldl mergeGuestItem c.items) now,
      ?_, (findCart_mem hc).2, ?_, sumTotalPrice_eq_sum _, rfl, rfl⟩
    · simp [merge, cartOrNew_of_some now hc]
    · exact foldl_mergeGuestItem_eq_specMerge guestCart c.items

/-- C11 (evaluation at the failing input): a user with no cart sends `addItem` twice with the
productId `ABCDEFABCDEFABCDEFABCDEF` (quantity 1, unitPrice 10). The store is reachable and
holds one cart, the user's; that cart has two lines with the same productId,
`abcdefabcdefabcdefabcdef`, so not every cart of a reachable store has lines with pairwise
distinct productIds. One `merge` whose guest list names that productId twice gives two such
lines as well. -/
theorem uppercase_productId_twice_gives_two_lines [JsString] :
    Reachable (handle (handle Store.empty "0123456789abcdef01234567" 1
        (.addItem "ABCDEFABCDEFABCDEFABCDEF" "sku" "pen" 1 10)) "0123456789abcdef01234567" 2
        (.addItem "ABCDEFABCDEFABCDEFABCDEF" "sku" "pen" 1 10)) ∧
    (handle (handle Store.empty "0123456789abcdef01234567" 1
        (.addItem "ABCDEFABCDEFABCDEFABCDEF" "sku" "pen" 1 10)) "0123456789abcdef01234567" 2
        (.addItem "ABCDEFABCDEFABCDEFABCDEF" "sku" "pen" 1 10)).carts.map
        (fun c => (c.userId, c.items.map (fun item => (item.productId, item.quantity))))
      = [("0123456789abcdef01234567",
          [("abcdefabcdefabcdefabcdef", 1), ("abcdefabcdefabcdefabcdef", 1)])] ∧
    (¬ ∀ c ∈ (handle (handle Store.empty "0123456789abcdef01234567" 1
        (.addItem "ABCDEFABCDEFABCDEFABCDEF" "sku" "pen" 1 10)) "0123456789abcdef01234567" 2
        (.addItem "ABCDEFABCDEFABCDEFABCDEF" "sku" "pen" 1 10)).carts,
        (c.items.map (fun item => item.productId)).Nodup) ∧
    Reachable (handle Store.empty "0123456789abcdef01234567" 1 (.merge
        [{ productId := "ABCDEFABCDEFABCDEFABCDEF", sku := "sku", name := "pen", quantity := 1,
           unitPrice := 10, totalPrice := 10 },
         { productId := "ABCDEFABCDEFABCDEFABCDEF", sku := "sku", name := "pen", quantity := 3,
           unitPrice := 10, totalPrice := 30 }])) ∧
    (handle Store.empty "0123456789abcdef01234567" 1 (.merge
        [{ productId := "ABCDEFABCDEFABCDEFABCDEF", sku := "sku", name := "pen", quantity := 1,
           unitPrice := 10, totalPrice := 10 },
         { productId := "ABCDEFABCDEFABCDEFABCDEF", sku := "sku", name := "pen", quantity := 3,
           unitPrice := 10, totalPrice := 30 }])).carts.map
        (fun c => (c.userId, c.items.map (fun item => (item.productId, item.quantity))))
      = [("0123456789abcdef01234567",
          [("abcdefabcdefabcdefabcdef", 1), ("abcdefabcdefabcdefabcdef", 3)])] := by
  refine ⟨Reachable.step _ _ _ (Reachable.step _ _ _ Reachable.empty), ?_, ?_,
    Reachable.step _ _ _ Reachable.empty, ?_⟩
  all_goals simp only [handle]
  all_goals decide!

/-- C12, as stated, fails: `addItem("p", quantity 0, unitPrice 10)` on the empty store is a
reachable store whose cart has a line with quantity 0. -/
theorem reachable_line_quantity_zero :
    Reachable (handle Store.empty "u" 1 (.addItem "p" "sku" "pen" 0 10)) ∧
    (findCart (handle Store.empty "u" 1 (.addItem "p" "sku" "pen" 0 10)) "u").map
      (fun c => c.items.map (fun item => item.quantity)) = some [0] := by
  refine ⟨Reachable.step _ _ _ Reachable.empty, ?_⟩
  simp only [handle]
  decide!

/-- C12, amended: in every store reachable from the empty store by requests whose incoming
quantities are at least 1 (the `quantity` of addItem and of moveToCart, the quantity of every
merge guest item; the `quantity` of updateQuantity is any integer), every line of every cart
has quantity at least 1. -/
theorem reachablePositive_quantities [JsString] (st : Store) (h : ReachablePositive st) :
    ∀ c ∈ st.carts, ∀ item ∈ c.items, 1 ≤ item.quantity :=
  h.quantitiesOk.1

/-- Witness of C12 amended: `addItem("p", 2, 5)` then `updateQuantity("p", 7)`: the cart keeps
its line, with quantity 7. -/
theorem reachablePositive_quantities_witness :
    ReachablePositive (handle (handle Store.empty "u" 1 (.addItem "p" "sku" "pen" 2 5)) "u" 2
      (.updateQuantity "p" 7)) ∧
    (handle (handle Store.empty "u" 1 (.addItem "p" "sku" "pen" 2 5)) "u" 2
      (.updateQuantity "p" 7)).carts.map (fun c => c.items.map (fun item => item.quantity))
      = [[7]] ∧
    ∀ c ∈ (handle (handle Store.empty "u" 1 (.addItem "p" "sku" "pen" 2 5)) "u" 2
      (.updateQuantity "p" 7)).carts, ∀ item ∈ c.items, 1 ≤ item.quantity :=
  ⟨ReachablePositive.step _ _ _ trivial
      (ReachablePositive.step _ _ _ (by simp [Request.quantitiesPositive])
        ReachablePositive.empty),
   by decide!,
   reachablePositive_quantities _ (ReachablePositive.step _ _ _ trivial
      (ReachablePositive.step _ _ _ (by simp [Request.quantitiesPositive])
        ReachablePositive.empty))⟩

/-- C13: for a user who has the cart `c`, `removeDiscount` succeeds and the cart, sent back and
stored, has discount 0, no discountCode, `finalAmount = totalAmount`, and the items and
totalAmount of `c`; a second call succeeds with the same cart, up to `updatedAt`. -/
theorem removeDiscount_idempotent (st : Store) (hst : Inv st) (userId : String) (c : Cart)
    (hc : findCart st userId = some c) (now now' : Nat) :
    ∃ c1, (removeDiscount st userId now).2 = .success (some "Discount removed") c1 ∧
      findCart (removeDiscount st userId now).1 userId = some c1 ∧
      c1.discount = 0 ∧ c1.discountCode = none ∧ c1.finalAmount = c1.totalAmount ∧
      c1.items = c.items ∧ c1.totalAmount = c.totalAmount ∧
      (removeDiscount (removeDiscount st userId now).1 userId now').2
        = .success (some "Discount removed") { c1 with updatedAt := now' } ∧
      findCart (removeDiscount (removeDiscount st userId now).1 userId now').1 userId
        = some { c1 with updatedAt := now' } := by
  have hu := (findCart_mem hc).2
  obtain ⟨c1, hc1⟩ : ∃ c1 : Cart, c1 =
      { c with
        discount := 0
        discountCode := none
        finalAmount := c.totalAmount
        updatedAt := now } := ⟨_, rfl⟩
  have hr1 : removeDiscount st userId now
      = (saveCart st false c1, .success (some "Discount removed") c1) := by
    rw [hc1]; exact removeDiscount_of_some hc now
  have h1 : findCart (saveCart st false c1) userId = some c1 :=
    findCart_saveCart_old hst hc (by rw [hc1]) (by rw [hc1]; exact hu)
  have hst1 : Inv (saveCart st false c1) := by
    have := hst.removeDiscount userId now
    rwa [hr1] at this
  have hr2 := removeDiscount_of_some h1 now'
  have hc2 : ({ c1 with
      discount := 0
      discountCode := none
      finalAmount := c1.totalAmount
      updatedAt := now' } : Cart) = { c1 with updatedAt := now' } := by
    rw [hc1]
  rw [hc2] at hr2
  have h2 : findCart (saveCart (saveCart st false c1) false { c1 with updatedAt := now' })
      userId = some { c1 with updatedAt := now' } :=
    findCart_saveCart_old hst1 h1 rfl (by rw [hc1]; exact hu)
  refine ⟨c1, by rw [hr1], by rw [hr1]; exact h1, by rw [hc1], by rw [hc1], by rw [hc1],
    by rw [hc1], by rw [hc1], ?_, ?_⟩
  · rw [hr1]
    dsimp only
    rw [hr2]
  · rw [hr1]
    dsimp only
    rw [hr2]
    exact h2

/-- Witness of C13: a cart with the discount SAVE10, then `removeDiscount` twice. -/
theorem removeDiscount_idempotent_witness :
    ∃ c1, (removeDiscount (applyDiscount (addItem Store.empty "u" 1 "p" "sku" "pen" 2 5).1
        "u" 2 "SAVE10").1 "u" 3).2 = .success (some "Discount removed") c1 ∧
      c1.discount = 0 ∧ c1.discountCode = none ∧ c1.finalAmount = c1.totalAmount ∧
      (removeDiscount (removeDiscount (applyDiscount (addItem Store.empty "u" 1 "p" "sku" "pen"
        2 5).1 "u" 2 "SAVE10").1 "u" 3).1 "u" 4).2
        = .success (some "Discount removed") { c1 with updatedAt := 4 } := by
  obtain ⟨c1, h1, -, h3, h4, h5, -, -, h8, -⟩ := removeDiscount_idempotent
    (applyDiscount (addItem Store.empty "u" 1 "p" "sku" "pen" 2 5).1 "u" 2 "SAVE10").1
    ((Inv.empty.addItem "u" 1 "p" "sku" "pen" 2 5).applyDiscount "u" 2 "SAVE10") "u"
    { id := 0, userId := "u",
      items := [{ productId := "p", sku := "sku", name := "pen", quantity := 2,
                  unitPrice := 5, totalPrice := 10 }],
      totalAmount := 10, discount := 1, discountCode := some "SAVE10", finalAmount := 9,
      updatedAt := 2 }
    (by decide!) 3 4
  exact ⟨c1, h1, h3, h4, h5, h8⟩

/-- C14: `save` answers status 400 `Cart is empty`, leaving the store (its saved carts
included) unchanged, when the user has no cart or a cart with zero items; otherwise it
succeeds, appends exactly one saved cart, owned by the caller (its userId is the ObjectId of
the caller's id) and holding the cart's items and totalAmount, to the saved carts, which are
otherwise unchanged, and leaves the carts and the wishlists unchanged. -/
theorem save_empty_or_snapshot (st : Store) (userId : String) (now : Nat)
    (name : Option String) :
    ((findCart st userId = none ∨ ∃ c, findCart st userId = some c ∧ c.items = []) →
      save st userId now name = (st, .failure 400 "Cart is empty")) ∧
    (∀ c, findCart st userId = some c → c.items ≠ [] →
      ∃ s, (save st userId now name).2 = .success (some "Cart saved successfully") s ∧
        (save st userId now name).1.savedCarts = st.savedCarts ++ [s] ∧
        (save st userId now name).1.carts = st.carts ∧
        (save st userId now name).1.wishlists = st.wishlists ∧
        s.userId = castObjectId userId ∧ s.items = c.items ∧
        s.totalAmount = c.totalAmount) := by
  constructor
  · rintro (hnone | ⟨c, hc, hempty⟩)
    · simp [save, hnone]
    · simp [save, hc, hempty]
  · intro c hc hne
    have hlen : ¬ c.items.length = 0 := fun h => hne (List.length_eq_zero.1 h)
    simp only [save, hc, hlen, if_false]
    exact ⟨_, rfl, by simp⟩

/-- Witness of C14: no cart on the empty store; a cart with one line after `addItem`. -/
theorem save_empty_or_snapshot_witness :
    save Store.empty "u" 1 none = (Store.empty, .failure 400 "Cart is empty") ∧
    ∃ s, (save (addItem Store.empty "u" 1 "p" "sku" "pen" 2 5).1 "u" 2 (some "mine")).2
        = .success (some "Cart saved successfully") s ∧
      s.userId = "u" ∧ s.totalAmount = 10 := by
  refine ⟨(save_empty_or_snapshot Store.empty "u" 1 none).1 (Or.inl rfl), ?_⟩
  obtain ⟨s, h1, -, -, -, h5, -, h7⟩ :=
    (save_empty_or_snapshot (addItem Store.empty "u" 1 "p" "sku" "pen" 2 5).1 "u" 2
      (some "mine")).2
      { id := 0, userId := "u",
        items := [{ productId := "p", sku := "sku", name := "pen", quantity := 2,
                    unitPrice := 5, totalPrice := 10 }],
        totalAmount := 10, discount := 0, discountCode := none, finalAmount := 10,
        updatedAt := 1 }
      (by decide!) (by simp)
  exact ⟨s, h1, h5, h7⟩

/-- C15: `count` sends the sum of the quantities of the lines of the user's cart, and 0 when
the user has no cart; in both cases the store it leaves is the store it found, so no cart is
created. -/
theorem count_is_sum_and_reads_only (st : Store) (userId : String) :
    count st userId = (st, .success none
      (match findCart st userId with
        | some c => (c.items.map (fun item => item.quantity)).sum
        | none => 0)) := by
  unfold count
  cases hc : findCart st userId with
  | none => rfl
  | some c => simp only [foldl_quantity_eq_sum]

/-- C16: `getCart` succeeds with a cart `c` that is the user's stored cart afterwards; for a
user with no cart, `c` is new, owned by the user (its userId is the ObjectId of the user's id),
with no items and totalAmount, discount and finalAmount 0, and is appended to the carts; for a user with a cart, `c` is that cart and the
store is unchanged; a second `getCart` sends the same cart and changes nothing. -/
theorem getCart_idempotent (st : Store) (userId : String) (now now' : Nat) :
    ∃ c, (getCart st userId now).2 = .success none c ∧
      findCart (getCart st userId now).1 userId = some c ∧
      (findCart st userId = none →
        c.userId = castObjectId userId ∧ c.items = [] ∧ c.totalAmount = 0 ∧ c.discount = 0 ∧
        c.finalAmount = 0 ∧ c.discountCode = none ∧
        (getCart st userId now).1.carts = st.carts ++ [c]) ∧
      (∀ c0, findCart st userId = some c0 → c = c0 ∧ (getCart st userId now).1 = st) ∧
      getCart (getCart st userId now).1 userId now'
        = ((getCart st userId now).1, .success none c) := by
  cases hc : findCart st userId with
  | some c0 =>
    refine ⟨c0, ?_, ?_, ?_, ?_, ?_⟩
    · simp [getCart, hc]
    · simp [getCart, hc]
    · intro h; cases h
    · intro c1 h1
      simp only [Option.some.injEq] at h1
      exact ⟨h1, by simp [getCart, hc]⟩
    · simp [getCart, hc]
  | none =>
    have h1 : findCart (saveCart st true (newCart st userId now)) userId
        = some (newCart st userId now) := findCart_saveCart_new hc rfl
    refine ⟨newCart st userId now, ?_, ?_, ?_, ?_, ?_⟩
    · simp [getCart, hc]
    · simpa [getCart, hc] using h1
    · intro _
      exact ⟨rfl, rfl, rfl, rfl, rfl, rfl, by simp [getCart, hc, saveCart]⟩
    · intro c1 h; cases h
    · simp only [getCart, hc, h1]

/-- Witness of C16: `getCart` for a user with no cart, and for a user who has one. -/
theorem getCart_idempotent_witness :
    (∃ c, (getCart Store.empty "u" 1).2 = .success none c ∧ c.items = [] ∧
      c.totalAmount = 0 ∧
      getCart (getCart Store.empty "u" 1).1 "u" 2
        = ((getCart Store.empty "u" 1).1, .success none c)) ∧
    (getCart (addItem Store.empty "u" 1 "p" "sku" "pen" 2 5).1 "u" 2).1
      = (addItem Store.empty "u" 1 "p" "sku" "pen" 2 5).1 := by
  constructor
  · obtain ⟨c, h1, -, h3, -, h5⟩ := getCart_idempotent Store.empty "u" 1 2
    obtain ⟨-, h32, h33, -⟩ := h3 rfl
    exact ⟨c, h1, h32, h33, h5⟩
  · obtain ⟨c, -, -, -, h4, -⟩ :=
      getCart_idempotent (addItem Store.empty "u" 1 "p" "sku" "pen" 2 5).1 "u" 2 3
    exact (h4
      { id := 0, userId := "u",
        items := [{ productId := "p", sku := "sku", name := "pen", quantity := 2,
                    unitPrice := 5, totalPrice := 10 }],
        totalAmount := 10, discount := 0, discountCode := none, finalAmount := 10,
        updatedAt := 1 } (by decide!)).2

/-- C17: for a user who has the cart `c` (in a store satisfying the invariant, so in every
reachable store), `removeItem` succeeds and the cart, sent back and stored, has the lines of
`c` that are not for `productId`, in their order (so `pre ++ post` when `c` has the line `x`
for it between `pre` and `post`, which have none for it), totalAmount the sum of their
totalPrice,
`finalAmount = totalAmount - discount`, and the discount and discountCode of `c`; when `c` has
no line for `productId`, items, totalAmount, discount, discountCode and finalAmount are those
of `c`. -/
theorem removeItem_filters_line (st : Store) (hst : Inv st) (userId : String) (now : Nat)
    (productId : String) (c : Cart) (hc : findCart st userId = some c) :
    ∃ c', (removeItem st userId now productId).2
        = .success (some "Item removed from cart") c' ∧
      findCart (removeItem st userId now productId).1 userId = some c' ∧
      c'.items = c.items.filter (fun item => item.productId != productId) ∧
      (∀ item ∈ c'.items, item.productId ≠ productId) ∧
      (∀ pre x post, c.items = pre ++ x :: post → x.productId = productId →
        (∀ y ∈ pre, y.productId ≠ productId) → (∀ y ∈ post, y.productId ≠ productId) →
        c'.items = pre ++ post) ∧
      c'.totalAmount = (c'.items.map (fun item => item.totalPrice)).sum ∧
      c'.finalAmount = c'.totalAmount - c'.discount ∧
      c'.discount = c.discount ∧ c'.discountCode = c.discountCode ∧
      ((∀ item ∈ c.items, item.productId ≠ productId) →
        c'.items = c.items ∧ c'.totalAmount = c.totalAmount ∧ c'.discount = c.discount ∧
        c'.discountCode = c.discountCode ∧ c'.finalAmount = c.finalAmount) := by
  have hok := hst.cartOk c (findCart_mem hc).1
  refine ⟨recompute c (c.items.filter (fun item => item.productId != productId)) now,
    ?_, ?_, rfl, ?_, ?_, sumTotalPrice_eq_sum _, rfl, rfl, rfl, ?_⟩
  · simp [removeItem, hc]
  · simp only [removeItem, hc]
    exact findCart_saveCart_old hst hc rfl (findCart_mem hc).2
  · intro item hi
    simpa [recompute] using (List.mem_filter.1 hi).2
  · intro pre x post hitems hx hpre hpost
    have h1 : pre.filter (fun item => item.productId != productId) = pre :=
      List.filter_eq_self.2 (fun y hy => by simpa using hpre y hy)
    have h2 : post.filter (fun item => item.productId != productId) = post :=
      List.filter_eq_self.2 (fun y hy => by simpa using hpost y hy)
    simp only [recompute, hitems, List.filter_append, List.filter_cons, hx, bne_self_eq_false,
      Bool.false_eq_true, if_false, h1, h2]
  · intro habs
    have hf : c.items.filter (fun item => item.productId != productId) = c.items :=
      List.filter_eq_self.2 (fun y hy => by simpa using habs y hy)
    simp only [recompute, hf]
    refine ⟨trivial, ?_, trivial, trivial, ?_⟩
    · rw [sumTotalPrice_eq_sum, ← hok.total]
    · rw [sumTotalPrice_eq_sum, ← hok.total, ← hok.final]

/-- Witness of C17: on the cart made by `addItem("p", 2, 5)`, `removeItem("q")` changes
nothing and `removeItem("p")` leaves no line. -/
theorem removeItem_filters_line_witness :
    (∃ c', (removeItem (addItem Store.empty "u" 1 "p" "sku" "pen" 2 5).1 "u" 2 "q").2
        = .success (some "Item removed from cart") c' ∧
      c'.items = [{ productId := "p", sku := "sku", name := "pen", quantity := 2,
                    unitPrice := 5, totalPrice := 10 }] ∧
      c'.totalAmount = 10 ∧ c'.finalAmount = 10) ∧
    (∃ c', (removeItem (addItem Store.empty "u" 1 "p" "sku" "pen" 2 5).1 "u" 2 "p").2
        = .success (some "Item removed from cart") c' ∧ c'.items = []) := by
  constructor
  · obtain ⟨c', h1, -, -, -, -, -, -, -, -, h10⟩ := removeItem_filters_line
      (addItem Store.empty "u" 1 "p" "sku" "pen" 2 5).1
      (Inv.empty.addItem "u" 1 "p" "sku" "pen" 2 5) "u" 2 "q"
      { id := 0, userId := "u",
        items := [{ productId := "p", sku := "sku", name := "pen", quantity := 2,
                    unitPrice := 5, totalPrice := 10 }],
        totalAmount := 10, discount := 0, discountCode := none, finalAmount := 10,
        updatedAt := 1 }
      (by decide!)
    obtain ⟨h11, h12, -, -, h15⟩ := h10 (by decide)
    exact ⟨c', h1, h11, h12, h15⟩
  · obtain ⟨c', h1, -, -, -, h5, -⟩ := removeItem_filters_line
      (addItem Store.empty "u" 1 "p" "sku" "pen" 2 5).1
      (Inv.empty.addItem "u" 1 "p" "sku" "pen" 2 5) "u" 2 "p"
      { id := 0, userId := "u",
        items := [{ productId := "p", sku := "sku", name := "pen", quantity := 2,
                    unitPrice := 5, totalPrice := 10 }],
        totalAmount := 10, discount := 0, discountCode := none, finalAmount := 10,
        updatedAt := 1 }
      (by decide!)
    exact ⟨c', h1, h5 [] _ [] rfl rfl (by simp) (by simp)⟩

/-- C18: `clear` answers status 404 `Cart not found` and leaves the store unchanged (so creates
no cart) when the user has no cart; when the user has the cart `c` it succeeds and the cart,
sent back and stored, is the same document (same `_id`, same user: the userId of `c`, which
is the ObjectId of the user's id) with no items,
totalAmount, discount and finalAmount 0 and no discountCode, while the saved carts and the
wishlists are unchanged. -/
theorem clear_empties_cart (st : Store) (hst : Inv st) (userId : String) (now : Nat) :
    (findCart st userId = none → clear st userId now = (st, .failure 404 "Cart not found")) ∧
    (∀ c, findCart st userId = some c →
      ∃ c', (clear st userId now).2 = .success (some "Cart cleared") c' ∧
        findCart (clear st userId now).1 userId = some c' ∧
        c'.items = [] ∧ c'.totalAmount = 0 ∧ c'.discount = 0 ∧ c'.finalAmount = 0 ∧
        c'.discountCode = none ∧ c'.userId = c.userId ∧ c'.userId = castObjectId userId ∧
        c'.id = c.id ∧
        (clear st userId now).1.savedCarts = st.savedCarts ∧
        (clear st userId now).1.wishlists = st.wishlists) := by
  constructor
  · intro hnone
    simp [clear, hnone]
  · intro c hc
    have hu := (findCart_mem hc).2
    refine ⟨{ c with
        items := []
        totalAmount := 0
        discount := 0
        discountCode := none
        finalAmount := 0
        updatedAt := now }, ?_, ?_, rfl, rfl, rfl, rfl, rfl, rfl, hu, rfl, ?_, ?_⟩
    · simp [clear, hc]
    · simp only [clear, hc]
      exact findCart_saveCart_old hst hc rfl hu
    · simp only [clear, hc, saveCart_savedCarts]
    · simp only [clear, hc, saveCart_wishlists]

/-- Witness of C18: `clear` on the empty store, and on the cart made by `addItem`. -/
theorem clear_empties_cart_witness :
    clear Store.empty "u" 1 = (Store.empty, .failure 404 "Cart not found") ∧
    ∃ c', (clear (addItem Store.empty "u" 1 "p" "sku" "pen" 2 5).1 "u" 2).2
        = .success (some "Cart cleared") c' ∧ c'.items = [] ∧ c'.finalAmount = 0 := by
  refine ⟨(clear_empties_cart Store.empty Inv.empty "u" 1).1 rfl, ?_⟩
  obtain ⟨c', h1, -, h3, -, -, h6, -⟩ :=
    (clear_empties_cart (addItem Store.empty "u" 1 "p" "sku" "pen" 2 5).1
      (Inv.empty.addItem "u" 1 "p" "sku" "pen" 2 5) "u" 2).2
      { id := 0, userId := "u",
        items := [{ productId := "p", sku := "sku", name := "pen", quantity := 2,
                    unitPrice := 5, totalPrice := 10 }],
        totalAmount := 10, discount := 0, discountCode := none, finalAmount := 10,
        updatedAt := 1 }
      (by decide!)
  exact ⟨c', h1, h3, h6⟩

/-- C19 (evaluation at the failing input): a user with no wishlist sends wishlist `addItem`
twice with the productId `ABCDEFABCDEFABCDEFABCDEF`. The first call succeeds and stores the
item under `abcdefabcdefabcdefabcdef`. The second call, for the product the wishlist already
holds, does not answer status 400 `Item already in wishlist`: it succeeds too, and the wishlist
it sends back and stores, in a reachable store, holds the product twice. -/
theorem wishlist_accepts_uppercase_productId_twice [JsString] :
    Reachable (handle (handle Store.empty "0123456789abcdef01234567" 1
        (.wishlistAddItem "ABCDEFABCDEFABCDEFABCDEF" "sku" "pen" 7))
        "0123456789abcdef01234567" 2
        (.wishlistAddItem "ABCDEFABCDEFABCDEFABCDEF" "sku" "pen" 7)) ∧
    ∃ w1 w2,
      reply Store.empty "0123456789abcdef01234567" 1
          (.wishlistAddItem "ABCDEFABCDEFABCDEFABCDEF" "sku" "pen" 7)
        = .wishlist (.success (some "Item added to wishlist") w1) ∧
      w1.items.map (fun item => item.productId) = ["abcdefabcdefabcdefabcdef"] ∧
      reply (handle Store.empty "0123456789abcdef01234567" 1
          (.wishlistAddItem "ABCDEFABCDEFABCDEFABCDEF" "sku" "pen" 7))
          "0123456789abcdef01234567" 2
          (.wishlistAddItem "ABCDEFABCDEFABCDEFABCDEF" "sku" "pen" 7)
        = .wishlist (.success (some "Item added to wishlist") w2) ∧
      findWishlist (handle (handle Store.empty "0123456789abcdef01234567" 1
          (.wishlistAddItem "ABCDEFABCDEFABCDEFABCDEF" "sku" "pen" 7))
          "0123456789abcdef01234567" 2
          (.wishlistAddItem "ABCDEFABCDEFABCDEFABCDEF" "sku" "pen" 7))
          "0123456789abcdef01234567" = some w2 ∧
      w2.items.map (fun item => item.productId)
        = ["abcdefabcdefabcdefabcdef", "abcdefabcdefabcdefabcdef"] := by
  refine ⟨Reachable.step _ _ _ (Reachable.step _ _ _ Reachable.empty),
    { id := 0, userId := "0123456789abcdef01234567",
      items := [{ productId := "abcdefabcdefabcdefabcdef", sku := "sku", name := "pen",
                  unitPrice := 7, addedAt := 1 }],
      updatedAt := 1 },
    { id := 0, userId := "0123456789abcdef01234567",
      items := [{ productId := "abcdefabcdefabcdefabcdef", sku := "sku", name := "pen",
                  unitPrice := 7, addedAt := 1 },
                { productId := "abcdefabcdefabcdefabcdef", sku := "sku", name := "pen",
                  unitPrice := 7, addedAt := 2 }],
      updatedAt := 2 }, ?_, rfl, ?_, ?_, rfl⟩
  all_goals simp only [handle, reply]
  all_goals decide!

/-- C20: for a user who has the cart `c`, each of addItem, updateQuantity, removeItem, merge,
restore and moveToCart, whether it succeeds or not, leaves the user's cart with the discount
and the discountCode of `c`: the absolute discount is not rescaled. So finalAmount can be
negative in a reachable store: after `addItem("p", 1, 10)`, `applyDiscount("SAVE10")` and
`removeItem("p")` the cart has totalAmount 0, discount 1, code SAVE10 and finalAmount -1. -/
theorem line_mutations_keep_discount [JsString] (st : Store) (hst : Inv st)
    (userId : String) (c : Cart) (hc : findCart st userId = some c) (now : Nat)
    (m : LineMutation) :
    (∃ c', findCart (handle st userId now m.toRequest) userId = some c' ∧
      c'.discount = c.discount ∧ c'.discountCode = c.discountCode) ∧
    (Reachable (handle (handle (handle Store.empty "u" 1 (.addItem "p" "sku" "pen" 1 10))
        "u" 2 (.applyDiscount "SAVE10")) "u" 3 (.removeItem "p")) ∧
      (findCart (handle (handle (handle Store.empty "u" 1 (.addItem "p" "sku" "pen" 1 10))
        "u" 2 (.applyDiscount "SAVE10")) "u" 3 (.removeItem "p")) "u").map
        (fun c => (c.items, c.totalAmount, c.discount, c.discountCode, c.finalAmount))
        = some ([], 0, 1, some "SAVE10", -1)) ∧
    ∃ st', Reachable st' ∧ ∃ c' ∈ st'.carts, c'.finalAmount < 0 := by
  have hr : Reachable (handle (handle (handle Store.empty "u" 1
      (.addItem "p" "sku" "pen" 1 10)) "u" 2 (.applyDiscount "SAVE10")) "u" 3
      (.removeItem "p")) :=
    Reachable.step _ _ _ (Reachable.step _ _ _ (Reachable.step _ _ _ Reachable.empty))
  have hf : findCart (handle (handle (handle Store.empty "u" 1
      (.addItem "p" "sku" "pen" 1 10)) "u" 2 (.applyDiscount "SAVE10")) "u" 3
      (.removeItem "p")) "u"
      = some { id := 0, userId := "u", items := [], totalAmount := 0, discount := 1,
               discountCode := some "SAVE10", finalAmount := -1, updatedAt := 3 } := by
    have hup : toUpperCase "SAVE10" = "SAVE10" :=
      (JsString.upper_ascii _ (by decide)).trans (by decide)
    simp only [handle, applyDiscount, hup]
    decide!
  refine ⟨lineMutation_discount hst hc now m, ⟨hr, ?_⟩, _, hr, _, (findCart_mem hf).1, ?_⟩
  · rw [hf]; rfl
  · norm_num

/-- Witness of C20: a discounted cart, then `removeItem` of its only line. -/
theorem line_mutations_keep_discount_witness :
    ∃ c', findCart (handle (applyDiscount (addItem Store.empty "u" 1 "p" "sku" "pen" 1 10).1
        "u" 2 "SAVE10").1 "u" 3 (LineMutation.removeItem "p").toRequest) "u" = some c' ∧
      c'.discount = 1 ∧ c'.discountCode = some "SAVE10" :=
  (line_mutations_keep_discount
    (applyDiscount (addItem Store.empty "u" 1 "p" "sku" "pen" 1 10).1 "u" 2 "SAVE10").1
    ((Inv.empty.addItem "u" 1 "p" "sku" "pen" 1 10).applyDiscount "u" 2 "SAVE10") "u"
    { id := 0, userId := "u",
      items := [{ productId := "p", sku := "sku", name := "pen", quantity := 1,
                  unitPrice := 10, totalPrice := 10 }],
      totalAmount := 10, discount := 1, discountCode := some "SAVE10", finalAmount := 9,
      updatedAt := 2 }
    (by decide!) 3 (.removeItem "p")).1

/-- C21, as stated, fails in the arithmetic of the code (IEEE doubles). The cart holds one unit
of `p` at the price 1.35, the double `6079859496950170 / 2 ^ 52`; the wishlist holds `p` at the
next double, `6079859496950171 / 2 ^ 52`. `moveToCart(p, 2)`, with the product of doubles,
leaves the line with quantity 3, not 0, and the cart's unitPrice, which differs from the
wishlist's price; yet its totalPrice, the product of 3 and the wishlist's price, is equal to
`quantity * unitPrice`: both products round to the same double. -/
theorem moveToCart_rounded_products_coincide :
    roundDouble (27 / 20) = mkRat 6079859496950170 4503599627370496 ∧
    roundDouble (mkRat 6079859496950171 4503599627370496)
      = mkRat 6079859496950171 4503599627370496 ∧
    ∃ c' w' x',
      (moveToCartWith doubleMul
        (wishlistAddItem (addItem Store.empty "u" 1 "p" "sku" "pen" 1
          (mkRat 6079859496950170 4503599627370496)).1 "u" 2 "p" "sku" "pen"
          (mkRat 6079859496950171 4503599627370496)).1 "u" 3 "p" 2).2
        = .success (some "Item moved to cart") (c', w') ∧
      c'.items = [x'] ∧ x'.quantity = 3 ∧ x'.quantity ≠ 0 ∧
      x'.unitPrice = mkRat 6079859496950170 4503599627370496 ∧
      mkRat 6079859496950171 4503599627370496 ≠ x'.unitPrice ∧
      x'.totalPrice = doubleMul 3 (mkRat 6079859496950171 4503599627370496) ∧
      x'.totalPrice = doubleMul (x'.quantity : ℚ) x'.unitPrice := by
  refine ⟨by decide!, by decide!,
    { id := 0, userId := "u",
      items := [{ productId := "p", sku := "sku", name := "pen", quantity := 3,
                  unitPrice := mkRat 6079859496950170 4503599627370496,
                  totalPrice := mkRat 1139973655678157 281474976710656 }],
      totalAmount := mkRat 1139973655678157 281474976710656, discount := 0,
      discountCode := none,
      finalAmount := mkRat 1139973655678157 281474976710656, updatedAt := 3 },
    { id := 1, userId := "u", items := [], updatedAt := 3 },
    { productId := "p", sku := "sku", name := "pen", quantity := 3,
      unitPrice := mkRat 6079859496950170 4503599627370496,
      totalPrice := mkRat 1139973655678157 281474976710656 }, ?_, rfl, rfl, ?_, rfl, ?_, ?_, ?_⟩
  all_goals decide!

/-- C21, amended: for every product `mul` of numbers (the exact one of `moveToCart`, the
product of doubles, or any other), when the user's wishlist holds `item` for `productId` and
the user's cart has the line `x` for it, after the lines `pre`, none of which is for
`productId`, and before `post`, `moveToCart` leaves the cart, sent back and stored, with `pre`,
a line `x'` and `post`, where `x'` has quantity `x.quantity + quantity`, the cart's own
unitPrice `x.unitPrice` and totalPrice `mul (x.quantity + quantity) item.unitPrice`, computed
from the wishlist's price. So `x'.totalPrice` differs from `mul x'.quantity x'.unitPrice`
exactly when the products of the new quantity with the two prices differ; they do whenever the
prices differ and the new quantity is not 0 if `mul` can be cancelled, as the exact product
can. -/
theorem moveToCart_existing_line_prices (mul : ℚ → ℚ → ℚ) (st : Store) (hst : Inv st)
    (userId : String) (now : Nat) (productId : String) (quantity : Int) (w : Wishlist)
    (item : WishlistItem) (c : Cart) (pre post : List CartItem) (x : CartItem)
    (hw : findWishlist st userId = some w)
    (hitem : w.items.find? (fun i => i.productId == productId) = some item)
    (hc : findCart st userId = some c) (hitems : c.items = pre ++ x :: post)
    (hx : x.productId = productId) (hpre : ∀ y ∈ pre, y.productId ≠ productId) :
    ∃ c' w' x', (moveToCartWith mul st userId now productId quantity).2
        = .success (some "Item moved to cart") (c', w') ∧
      findCart (moveToCartWith mul st userId now productId quantity).1 userId = some c' ∧
      c'.items = pre ++ x' :: post ∧
      x'.quantity = x.quantity + quantity ∧
      x'.unitPrice = x.unitPrice ∧
      x'.totalPrice = mul ((x.quantity + quantity : Int) : ℚ) item.unitPrice ∧
      (x'.totalPrice ≠ mul (x'.quantity : ℚ) x'.unitPrice ↔
        mul ((x.quantity + quantity : Int) : ℚ) item.unitPrice
          ≠ mul ((x.quantity + quantity : Int) : ℚ) x.unitPrice) ∧
      ((∀ q a b : ℚ, q ≠ 0 → mul q a = mul q b → a = b) →
        item.unitPrice ≠ x.unitPrice → x.quantity + quantity ≠ 0 →
        x'.totalPrice ≠ mul (x'.quantity : ℚ) x'.unitPrice) := by
  have hlines := moveToCartLinesWith_existing mul pre post x item productId quantity hx hpre
  refine ⟨recompute c (moveToCartLinesWith mul c.items item productId quantity) now,
    { w with items := w.items.filter (fun i => i.productId != productId), updatedAt := now },
    { x with
      quantity := x.quantity + quantity
      totalPrice := mul ((x.quantity + quantity : Int) : ℚ) item.unitPrice },
    ?_, ?_, ?_, rfl, rfl, rfl, Iff.rfl, ?_⟩
  · simp [moveToCartWith, hw, hitem, cartOrNew_of_some now hc]
  · simp only [moveToCartWith, hw, hitem, cartOrNew_of_some now hc, findCart_saveWishlist]
    exact findCart_saveCart_old hst hc rfl (findCart_mem hc).2
  · simp only [recompute, hitems, hlines]
  · intro hcancel hprice hq heq
    exact hprice (hcancel _ _ _ (Int.cast_ne_zero.2 hq) heq)

/-- Witness of C21 amended, with the product of doubles: the cart holds `p` at price 10, the
wishlist holds `p` at price 7; the line gets quantity 3 and totalPrice 21, not 30. -/
theorem moveToCart_existing_line_prices_witness :
    ∃ c' w' x',
      (moveToCartWith doubleMul (wishlistAddItem (addItem Store.empty "u" 1 "p" "sku" "pen" 1
        10).1 "u" 2 "p" "sku" "pen" 7).1 "u" 3 "p" 2).2
        = .success (some "Item moved to cart") (c', w') ∧
      c'.items = [x'] ∧ x'.quantity = 3 ∧ x'.unitPrice = 10 ∧ x'.totalPrice = 21 ∧
      x'.totalPrice ≠ doubleMul (x'.quantity : ℚ) x'.unitPrice := by
  obtain ⟨c', w', x', h1, -, h3, h4, h5, h6, h7, -⟩ := moveToCart_existing_line_prices doubleMul
    (wishlistAddItem (addItem Store.empty "u" 1 "p" "sku" "pen" 1 10).1 "u" 2
      "p" "sku" "pen" 7).1
    ((Inv.empty.addItem "u" 1 "p" "sku" "pen" 1 10).wishlistAddItem "u" 2 "p" "sku" "pen" 7)
    "u" 3 "p" 2
    { id := 1, userId := "u",
      items := [{ productId := "p", sku := "sku", name := "pen", unitPrice := 7, addedAt := 2 }],
      updatedAt := 2 }
    { productId := "p", sku := "sku", name := "pen", unitPrice := 7, addedAt := 2 }
    { id := 0, userId := "u",
      items := [{ productId := "p", sku := "sku", name := "pen", quantity := 1,
                  unitPrice := 10, totalPrice := 10 }],
      totalAmount := 10, discount := 0, discountCode := none, finalAmount := 10,
      updatedAt := 1 }
    [] [] { productId := "p", sku := "sku", name := "pen", quantity := 1,
            unitPrice := 10, totalPrice := 10 }
    (by decide!) (by decide!) (by decide!) rfl rfl (by simp)
  refine ⟨c', w', x', h1, h3, ?_, h5, ?_, h7.2 (by decide!)⟩
  · rw [h4]; norm_num
  · rw [h6]; decide!

/-- C22: for a user who has the cart `c` and a valid `code` (rate `rate`), `applyDiscount(code)`
yields the cart `c1` with `discount = totalAmount * rate`, the upper-cased code and
`finalAmount = totalAmount - totalAmount * rate`, whatever discount `c` carried; the same cart
`c1` is sent back and stored when any other `applyDiscount(other)`, valid or not, came first;
in particular applying `code` twice gives the cart of applying it once, up to `updatedAt`. -/
theorem applyDiscount_does_not_stack [JsString] (st : Store) (hst : Inv st)
    (userId : String) (c : Cart) (hc : findCart st userId = some c) (code other : String)
    (rate : ℚ)
    (hrate : discountCodes (toUpperCase code) = some rate) (now now' : Nat) :
    ∃ c1 cOnce,
      (applyDiscount st userId now' code).2
        = .success (some "Discount applied successfully") c1 ∧
      c1.discount = c.totalAmount * rate ∧ c1.discountCode = some (toUpperCase code) ∧
      c1.finalAmount = c.totalAmount - c.totalAmount * rate ∧
      (applyDiscount (applyDiscount st userId now other).1 userId now' code).2
        = .success (some "Discount applied successfully") c1 ∧
      findCart (applyDiscount (applyDiscount st userId now other).1 userId now' code).1 userId
        = some c1 ∧
      (applyDiscount st userId now code).2
        = .success (some "Discount applied successfully") cOnce ∧
      (applyDiscount (applyDiscount st userId now code).1 userId now' code).2
        = .success (some "Discount applied successfully") { cOnce with updatedAt := now' } := by
  have key : ∀ other : String,
      (applyDiscount (applyDiscount st userId now other).1 userId now' code).2
        = .success (some "Discount applied successfully")
            { c with
              discount := c.totalAmount * rate
              discountCode := some (toUpperCase code)
              finalAmount := c.totalAmount - c.totalAmount * rate
              updatedAt := now' } ∧
      findCart (applyDiscount (applyDiscount st userId now other).1 userId now' code).1 userId
        = some
            { c with
              discount := c.totalAmount * rate
              discountCode := some (toUpperCase code)
              finalAmount := c.totalAmount - c.totalAmount * rate
              updatedAt := now' } := by
    intro other
    obtain ⟨c0, hc0, h1, h2, h3, h4⟩ := applyDiscount_keeps_lines hst hc now other
    have hst0 : Inv (applyDiscount st userId now other).1 := hst.applyDiscount userId now other
    have heq : ({ c0 with
        discount := c0.totalAmount * rate
        discountCode := some (toUpperCase code)
        finalAmount := c0.totalAmount - c0.totalAmount * rate
        updatedAt := now' } : Cart)
        = { c with
            discount := c.totalAmount * rate
            discountCode := some (toUpperCase code)
            finalAmount := c.totalAmount - c.totalAmount * rate
            updatedAt := now' } := by
      rw [h1, h2, h3, h4]
    rw [applyDiscount_of_some hc0 now' code hrate, heq]
    refine ⟨rfl, ?_⟩
    exact findCart_saveCart_old hst0 hc0 h1.symm (by rw [← h2]; exact (findCart_mem hc0).2)
  refine ⟨{ c with
      discount := c.totalAmount * rate
      discountCode := some (toUpperCase code)
      finalAmount := c.totalAmount - c.totalAmount * rate
      updatedAt := now' },
    { c with
      discount := c.totalAmount * rate
      discountCode := some (toUpperCase code)
      finalAmount := c.totalAmount - c.totalAmount * rate
      updatedAt := now },
    ?_, rfl, rfl, rfl, (key other).1, (key other).2, ?_, (key code).1⟩
  · rw [applyDiscount_of_some hc now' code hrate]
  · rw [applyDiscount_of_some hc now code hrate]

/-- Witness of C22: SAVE20 on a cart of totalAmount 10, directly and after SAVE10. -/
theorem applyDiscount_does_not_stack_witness :
    ∃ c1, (applyDiscount (addItem Store.empty "u" 1 "p" "sku" "pen" 2 5).1 "u" 3 "SAVE20").2
        = .success (some "Discount applied successfully") c1 ∧
      c1.discount = 2 ∧ c1.finalAmount = 8 ∧
      (applyDiscount (applyDiscount (addItem Store.empty "u" 1 "p" "sku" "pen" 2 5).1 "u" 2
        "SAVE10").1 "u" 3 "SAVE20").2 = .success (some "Discount applied successfully") c1 := by
  obtain ⟨c1, -, h1, h2, -, h4, h5, -⟩ := applyDiscount_does_not_stack
    (addItem Store.empty "u" 1 "p" "sku" "pen" 2 5).1
    (Inv.empty.addItem "u" 1 "p" "sku" "pen" 2 5) "u"
    { id := 0, userId := "u",
      items := [{ productId := "p", sku := "sku", name := "pen", quantity := 2,
                  unitPrice := 5, totalPrice := 10 }],
      totalAmount := 10, discount := 0, discountCode := none, finalAmount := 10,
      updatedAt := 1 }
    (by decide!) "SAVE20" "SAVE10" (1 / 5) (by decide!) 2 3
  refine ⟨c1, h1, ?_, ?_, h5⟩
  · rw [h2]; norm_num
  · rw [h4]; norm_num

/-- C23, as stated, fails: two reachable stores hold the same documents for user `a` (none)
and have the same counter; in the first, user `b` has a saved cart with id 1, in the second
`b` has none. `restore(1)` by `a` answers 403 `Access denied` in the first and 404 `Saved cart
not found` in the second: the answer depends on another user's saved carts. -/
theorem restore_answer_depends_on_foreign_saved_cart :
    Reachable (handle (handle Store.empty "b" 1 (.addItem "p" "sku" "pen" 2 5)) "b" 2
      (.save (some "mine"))) ∧
    Reachable (handle (handle Store.empty "b" 1 (.addItem "p" "sku" "pen" 2 5)) "b" 2
      .wishlistGet) ∧
    sameViewFor "a"
      (handle (handle Store.empty "b" 1 (.addItem "p" "sku" "pen" 2 5)) "b" 2
        (.save (some "mine")))
      (handle (handle Store.empty "b" 1 (.addItem "p" "sku" "pen" 2 5)) "b" 2 .wishlistGet) ∧
    reply (handle (handle Store.empty "b" 1 (.addItem "p" "sku" "pen" 2 5)) "b" 2
        (.save (some "mine"))) "a" 3 (.restore 1)
      = .cart (.failure 403 "Access denied") ∧
    reply (handle (handle Store.empty "b" 1 (.addItem "p" "sku" "pen" 2 5)) "b" 2
        .wishlistGet) "a" 3 (.restore 1)
      = .cart (.failure 404 "Saved cart not found") := by
  refine ⟨Reachable.step _ _ _ (Reachable.step _ _ _ Reachable.empty),
    Reachable.step _ _ _ (Reachable.step _ _ _ Reachable.empty),
    ⟨?_, ?_, ?_, ?_⟩, ?_, ?_⟩
  all_goals simp only [handle, reply]
  all_goals decide!

/-- C23, amended: in a store satisfying the invariant (so in every reachable store), a request
of user `userId`, whether it succeeds or fails, leaves the cart, the wishlist and the saved
carts of every other user (a user whose id names another ObjectId) as they were; and its
answer is the same in any second such store that holds the same cart, wishlist and saved carts
for `userId` and has the same counter of fresh ids, unless the request is a restore or
deleteSaved of an id under which one of the two stores holds a saved cart of another user. -/
theorem requests_isolated [JsString] (st : Store) (hst : Inv st) (userId other : String)
    (hne : castObjectId other ≠ castObjectId userId) (now : Nat) (req : Request) :
    findCart (handle st userId now req) other = findCart st other ∧
    findWishlist (handle st userId now req) other = findWishlist st other ∧
    (handle st userId now req).savedCarts.filter (fun s => s.userId == castObjectId other)
      = st.savedCarts.filter (fun s => s.userId == castObjectId other) ∧
    ∀ st2, Inv st2 → sameViewFor userId st st2 →
      ¬ namesForeignSavedCart st userId req → ¬ namesForeignSavedCart st2 userId req →
      reply st userId now req = reply st2 userId now req :=
  ⟨handle_findCart_other hst userId other hne now req,
   handle_findWishlist_other hst userId other hne now req,
   handle_savedCarts_other st userId other hne now req,
   fun _ h2 hview hf1 hf2 => reply_congr hst h2 userId hview now req hf1 hf2⟩

/-- Witness of C23 amended: user `a` adds an item while user `b` has a cart and a saved cart,
or a cart and a wishlist. -/
theorem requests_isolated_witness :
    findCart (handle (handle (handle Store.empty "b" 1 (.addItem "p" "sku" "pen" 2 5)) "b" 2
        (.save (some "mine"))) "a" 3 (.addItem "q" "sku" "ink" 1 4)) "b"
      = findCart (handle (handle Store.empty "b" 1 (.addItem "p" "sku" "pen" 2 5)) "b" 2
        (.save (some "mine"))) "b" ∧
    reply (handle (handle Store.empty "b" 1 (.addItem "p" "sku" "pen" 2 5)) "b" 2
        (.save (some "mine"))) "a" 3 (.addItem "q" "sku" "ink" 1 4)
      = reply (handle (handle Store.empty "b" 1 (.addItem "p" "sku" "pen" 2 5)) "b" 2
        .wishlistGet) "a" 3 (.addItem "q" "sku" "ink" 1 4) := by
  obtain ⟨h1, -, -, h4⟩ := requests_isolated
    (handle (handle Store.empty "b" 1 (.addItem "p" "sku" "pen" 2 5)) "b" 2
      (.save (some "mine")))
    ((Inv.empty.handle "b" 1 (.addItem "p" "sku" "pen" 2 5)).handle "b" 2 (.save (some "mine")))
    "a" "b" (by decide!) 3 (.addItem "q" "sku" "ink" 1 4)
  refine ⟨h1, h4 _
    ((Inv.empty.handle "b" 1 (.addItem "p" "sku" "pen" 2 5)).handle "b" 2 .wishlistGet)
    ⟨?_, ?_, ?_, ?_⟩ (fun h => h) (fun h => h)⟩ <;> decide!

end CartServer
